import Mathlib

/-!
Optimizer control core, gradient descent, SPSA and the Euler transform set-up.

A shallow embedding of

* `itkGradientDescentOptimizer2.h` and `itkSimultaneousPerturbationOptimizer.h`
  (class declarations; the member-function bodies are not part of the sources and
  are modelled from the specification, sections 4.2 - 4.4 and 7), and
* `elxEulerTransform.hxx` (`BeforeRegistration`, `ReadFromFile`, `InitializeTransform`,
  `ReadCenterOfRotationIndex`, `ReadCenterOfRotationPoint`).

Conventions: a C++ `double` is an exact rational (`ℚ`), so statements are about the
real-number algorithm and not about rounding (the two SPSA gain formulas, which raise
to a real power, are stated over `ℝ`); `unsigned long` counters are natural
numbers (the iteration counter only grows while it is below `m_NumberOfIterations`,
itself an `unsigned long`, so it never wraps); a member function that can throw
returns `Except`, the error side carrying the object state left behind.
-/

namespace itk

/-- Codes of stopping conditions, `StopConditionType` of `GradientDescentOptimizer2`
(the enumeration of `SimultaneousPerturbationOptimizer` has the first two). -/
inductive StopConditionType
  | MaximumNumberOfIterations
  | MetricError
  | MinimumStepSize
  deriving DecidableEq, Repr

/-- Parameter vectors: `ParametersType`. -/
abbrev ParametersType := List ℚ

/-- Derivative vectors: `DerivativeType`. -/
abbrev DerivativeType := List ℚ

/-- The external cost function of section 6 of the specification, as the optimizer
sees it (through the scaling adapter). `none` is a metric evaluation error. -/
structure CostFunctionType where
  GetValue : ParametersType → Option ℚ
  GetValueAndDerivative : ParametersType → Option (ℚ × DerivativeType)
  GetNumberOfParameters : Nat

/-- Optimizer object: the control-core members shared by both optimizers
(`m_CurrentIteration`, `m_NumberOfIterations`, `m_StopCondition`, `m_Stop` and the
current position of the superclass) and the strategy-specific members `strategy`.
`history` is instrumentation: the list of positions written by `SetCurrentPosition`
since the last `StartOptimization`, oldest first. -/
structure Optimizer (S : Type) where
  CurrentPosition : ParametersType
  CurrentIteration : Nat
  NumberOfIterations : Nat
  StopCondition : StopConditionType
  Stop : Bool
  history : List ParametersType
  strategy : S

namespace Optimizer

variable {S : Type}

/-- Position update: writes the current position (and logs the write). -/
def SetCurrentPosition (o : Optimizer S) (p : ParametersType) : Optimizer S :=
  { o with CurrentPosition := p, history := o.history ++ [p] }

/-- Modelled from the spec: `StopOptimization` (body not in the sources), section 4.2:
"sets a stop flag observed at the top of the next iteration boundary; idempotent". -/
def StopOptimization (o : Optimizer S) : Optimizer S :=
  { o with Stop := true }

/-- Modelled from the spec: the shared iteration loop (bodies of `ResumeOptimization`
not in the sources), section 4.2: "repeat while IterationCounter < NumberOfIterations
and stop flag is unset: call AdvanceOneStep(); if AdvanceOneStep reports a metric
error, set StopCondition = MetricEvaluationError and stop immediately without
incrementing past the failing iteration"; section 7: the error is re-surfaced to the
caller. `callback` is the caller's code that runs during an iteration (an observer or
the cost-function callback) and may call `StopOptimization`; the flag is looked at
only at the top of the next iteration. The first argument bounds the number of
iterations; `ResumeOptimization` passes `NumberOfIterations - CurrentIteration`. -/
def iterationLoop (AdvanceOneStep : Optimizer S → Except (Optimizer S) (Optimizer S))
    (callback : Optimizer S → Bool) : Nat → Optimizer S → Except (Optimizer S) (Optimizer S)
  | 0, o => .ok o
  | fuel + 1, o =>
    if o.CurrentIteration < o.NumberOfIterations ∧ o.Stop = false then
      match AdvanceOneStep o with
      | .error e => .error { e with StopCondition := .MetricError, Stop := true }
      | .ok o1 =>
        iterationLoop AdvanceOneStep callback fuel
          (if callback o1 then o1.StopOptimization else o1)
    else .ok o

/-- Modelled from the spec: `ResumeOptimization` (body not in the sources), section 4.2:
"transitions to Running without resetting IterationCounter; continues the iteration
loop", and "When IterationCounter reaches NumberOfIterations, set StopCondition =
MaxIterationsReached and stop". -/
def ResumeOptimization (AdvanceOneStep : Optimizer S → Except (Optimizer S) (Optimizer S))
    (callback : Optimizer S → Bool) (o : Optimizer S) : Except (Optimizer S) (Optimizer S) :=
  match iterationLoop AdvanceOneStep callback (o.NumberOfIterations - o.CurrentIteration)
      { o with Stop := false } with
  | .error e => .error e
  | .ok o1 =>
    if o1.CurrentIteration < o1.NumberOfIterations then .ok o1
    else .ok { o1 with StopCondition := .MaximumNumberOfIterations, Stop := true }

/-- Modelled from the spec: `StartOptimization` (body not in the sources), section 4.2:
"resets IterationCounter to 0; transitions to Running; invokes the iteration loop";
section 3: the caller's current estimate is the initial position. -/
def StartOptimization (AdvanceOneStep : Optimizer S → Except (Optimizer S) (Optimizer S))
    (callback : Optimizer S → Bool) (o : Optimizer S) : Except (Optimizer S) (Optimizer S) :=
  ResumeOptimization AdvanceOneStep callback { o with CurrentIteration := 0, history := [] }

/-- The caller never calls `StopOptimization`. -/
def neverStop : Optimizer S → Bool := fun _ => false

/-- The caller calls `StopOptimization` during the iteration that completes `k`
iterations. -/
def stopAfter (k : Nat) : Optimizer S → Bool := fun o => o.CurrentIteration == k

/-- The state after `n` consecutive successful calls of `AdvanceOneStep`, or the error
of the first failing call. -/
def advanceSteps (AdvanceOneStep : Optimizer S → Except (Optimizer S) (Optimizer S)) :
    Nat → Optimizer S → Except (Optimizer S) (Optimizer S)
  | 0, o => .ok o
  | n + 1, o =>
    match AdvanceOneStep o with
    | .error e => .error e
    | .ok o1 => advanceSteps AdvanceOneStep n o1

end Optimizer

/-! ## Gradient descent -/

/-- Strategy members of `GradientDescentOptimizer2` (`m_Value`, `m_Gradient`,
`m_SearchDirection`, `m_LearningRate`), and the minimize/maximize flag of section 6
of the specification. `m_UseOpenMP` changes evaluation speed only and is left out. -/
structure GradientDescentMembers where
  Value : ℚ
  Gradient : DerivativeType
  SearchDirection : DerivativeType
  LearningRate : ℚ
  Maximize : Bool

/-- The object type of `GradientDescentOptimizer2`. -/
abbrev GradientDescentOptimizer2 := Optimizer GradientDescentMembers

namespace GradientDescentOptimizer2

/-- Modelled from the spec: the search direction, section 4.3: "compute SearchDirection
from Gradient (sign-flipped for maximization)"; with the scenario of section 8
(minimizing `(x-3)^2` from 0 approaches 3) minimization follows the negative
gradient. -/
def ComputeSearchDirection (maximize : Bool) (g : DerivativeType) : DerivativeType :=
  if maximize then g else g.map (fun x => -x)

/-- Modelled from the spec: the update formula, section 4.3:
"Position ← Position + LearningRate × SearchDirection, component-wise". -/
def UpdatePosition (learningRate : ℚ) (p : ParametersType) (d : DerivativeType) :
    ParametersType :=
  List.zipWith (fun x y => x + learningRate * y) p d

/-- Modelled from the spec: `AdvanceOneStep` (body not in the sources), section 4.3:
"query the adapter for value and derivative at the current position; if the query
signals a metric evaluation error, record it and return the failure immediately
without mutating the position. Otherwise compute SearchDirection from Gradient, then
update Position"; section 4.2: "always increments IterationCounter by 1 on successful
completion". -/
def AdvanceOneStep (f : CostFunctionType) (o : GradientDescentOptimizer2) :
    Except GradientDescentOptimizer2 GradientDescentOptimizer2 :=
  match f.GetValueAndDerivative o.CurrentPosition with
  | none => .error { o with StopCondition := .MetricError }
  | some (v, g) =>
    let d := ComputeSearchDirection o.strategy.Maximize g
    let o1 : GradientDescentOptimizer2 :=
      { o with strategy := { o.strategy with Value := v, Gradient := g, SearchDirection := d } }
    let o2 := o1.SetCurrentPosition (UpdatePosition o.strategy.LearningRate o.CurrentPosition d)
    .ok { o2 with CurrentIteration := o2.CurrentIteration + 1 }

/-- Gradient-descent `StartOptimization`. -/
def StartOptimization (f : CostFunctionType) (callback : GradientDescentOptimizer2 → Bool)
    (o : GradientDescentOptimizer2) : Except GradientDescentOptimizer2 GradientDescentOptimizer2 :=
  Optimizer.StartOptimization (AdvanceOneStep f) callback o

/-- Gradient-descent `ResumeOptimization`. -/
def ResumeOptimization (f : CostFunctionType) (callback : GradientDescentOptimizer2 → Bool)
    (o : GradientDescentOptimizer2) : Except GradientDescentOptimizer2 GradientDescentOptimizer2 :=
  Optimizer.ResumeOptimization (AdvanceOneStep f) callback o

/-- The accessor that `itkGetConstMacro( CurrentIteration, unsigned int )` declares in
`itkGradientDescentOptimizer2.h`: `unsigned int GetCurrentIteration() const`, which
returns `this->m_CurrentIteration`. The member is an `unsigned long`; C++ converts it
to the return type `unsigned int` by reduction modulo `2 ^ unsignedIntBits`. The width
of `unsigned int` belongs to the platform and is a parameter (32 on the LP64 and LLP64
data models; `unsigned long` has 64 bits on LP64). -/
def GetCurrentIteration (unsignedIntBits : Nat) (o : GradientDescentOptimizer2) : Nat :=
  o.CurrentIteration % 2 ^ unsignedIntBits

end GradientDescentOptimizer2

/-! ## Simultaneous perturbation (SPSA) -/

/-- Strategy members of `SimultaneousPerturbationOptimizer` (`m_Gradient`, `m_Maximize`,
`m_LearningRate`, `m_ComputeCurrentValue`, `m_Value`, `m_Delta`). `randomDrawsUsed` is
the state of the random-number generator: how many draws have been consumed.
`m_CurrentStepLength` and `m_GradientMagnitude` (vector norms, diagnostics only) and the
five constants `m_Param_a` ... `m_Param_gamma` (used only inside `Compute_a` and
`Compute_c`) are left out. -/
structure SimultaneousPerturbationMembers where
  Gradient : DerivativeType
  Maximize : Bool
  LearningRate : ℚ
  ComputeCurrentValue : Bool
  Value : ℚ
  Delta : DerivativeType
  randomDrawsUsed : Nat

/-- The object type of `SimultaneousPerturbationOptimizer`. -/
abbrev SimultaneousPerturbationOptimizer := Optimizer SimultaneousPerturbationMembers

/-- What the SPSA optimizer is run against: the cost function, the two virtual gain
functions `Compute_a` and `Compute_c` (declared in the header, bodies not in the
sources; they raise a `double` to a non-integer power, so they are kept abstract), and
the sequence of outcomes of the random-number generator (`true` for +1). -/
structure SimultaneousPerturbationEnvironment where
  CostFunction : CostFunctionType
  Compute_a : Nat → ℚ
  Compute_c : Nat → ℚ
  randomDraws : Nat → Bool

namespace SimultaneousPerturbationOptimizer

/-- Modelled from the spec: the perturbation vector written by `GenerateDelta` (body not
in the sources), section 4.4: "each component of the perturbation vector is drawn
independently from a two-point symmetric Bernoulli-like distribution over {−1, +1}".
Component `i` takes draw number `used + i` of the generator. -/
def GenerateDeltaVector (randomDraws : Nat → Bool) (used : Nat) (spaceDimension : Nat) :
    DerivativeType :=
  (List.range spaceDimension).map (fun i => if randomDraws (used + i) then 1 else -1)

/-- Modelled from the spec: `GenerateDelta` (body not in the sources): stores the
perturbation vector in `m_Delta` and advances the generator. -/
def GenerateDelta (env : SimultaneousPerturbationEnvironment)
    (o : SimultaneousPerturbationOptimizer) (spaceDimension : Nat) :
    SimultaneousPerturbationOptimizer :=
  { o with strategy := { o.strategy with
      Delta := GenerateDeltaVector env.randomDraws o.strategy.randomDrawsUsed spaceDimension,
      randomDrawsUsed := o.strategy.randomDrawsUsed + spaceDimension } }

/-- The evaluation point `Position + s · c_k · Δ_k` (`s` is `1` or `-1`). -/
def PerturbedPosition (s ck : ℚ) (p : ParametersType) (delta : DerivativeType) :
    ParametersType :=
  List.zipWith (fun x d => x + s * ck * d) p delta

/-- Modelled from the spec: gradient estimate, section 4.4 step 3: "Estimate gradient
component i as (f(+) − f(−)) / (2·c_k·Δ_k[i]) for every dimension i". -/
def EstimateGradient (fplus fminus ck : ℚ) (delta : DerivativeType) : DerivativeType :=
  delta.map (fun d => (fplus - fminus) / (2 * ck * d))

/-- Modelled from the spec: position update, section 4.4 step 4: "Position[i] ←
Position[i] − a_k · Gradient_estimate[i] for minimization (sign flipped for
maximization)". -/
def UpdatePosition (maximize : Bool) (ak : ℚ) (p : ParametersType) (g : DerivativeType) :
    ParametersType :=
  List.zipWith (fun x y => if maximize then x + ak * y else x - ak * y) p g

/-- Modelled from the spec: `AdvanceOneStep` (body not in the sources), section 4.4
steps 1 - 5 and "Error handling: if either perturbed evaluation signals a metric error,
the iteration aborts, StopCondition = MetricError, no position update occurs for that
step". The gains are "evaluated at iteration index k (1-based)": the first iteration
has `k = 1`. A failure of the optional evaluation of step 5 is a metric error like any
other (section 7: "a metric error is always fatal to the current run"); it happens
after the update of step 4. -/
def AdvanceOneStep (env : SimultaneousPerturbationEnvironment)
    (o : SimultaneousPerturbationOptimizer) :
    Except SimultaneousPerturbationOptimizer SimultaneousPerturbationOptimizer :=
  let k := o.CurrentIteration + 1
  let ak := env.Compute_a k
  let ck := env.Compute_c k
  let o1 := GenerateDelta env o env.CostFunction.GetNumberOfParameters
  let delta := o1.strategy.Delta
  match env.CostFunction.GetValue (PerturbedPosition 1 ck o.CurrentPosition delta) with
  | none => .error { o1 with StopCondition := .MetricError }
  | some fplus =>
    match env.CostFunction.GetValue (PerturbedPosition (-1) ck o.CurrentPosition delta) with
    | none => .error { o1 with StopCondition := .MetricError }
    | some fminus =>
      let g := EstimateGradient fplus fminus ck delta
      let o2 : SimultaneousPerturbationOptimizer :=
        { o1 with strategy := { o1.strategy with Gradient := g, LearningRate := ak } }
      let o3 := o2.SetCurrentPosition (UpdatePosition o.strategy.Maximize ak o.CurrentPosition g)
      if o.strategy.ComputeCurrentValue then
        match env.CostFunction.GetValue o3.CurrentPosition with
        | none => .error { o3 with StopCondition := .MetricError }
        | some v =>
          .ok { o3 with CurrentIteration := o3.CurrentIteration + 1,
                        strategy := { o3.strategy with Value := v } }
      else .ok { o3 with CurrentIteration := o3.CurrentIteration + 1 }

/-- SPSA `StartOptimization`. -/
def StartOptimization (env : SimultaneousPerturbationEnvironment)
    (callback : SimultaneousPerturbationOptimizer → Bool)
    (o : SimultaneousPerturbationOptimizer) :
    Except SimultaneousPerturbationOptimizer SimultaneousPerturbationOptimizer :=
  Optimizer.StartOptimization (AdvanceOneStep env) callback o

/-- SPSA `ResumeOptimization`. -/
def ResumeOptimization (env : SimultaneousPerturbationEnvironment)
    (callback : SimultaneousPerturbationOptimizer → Bool)
    (o : SimultaneousPerturbationOptimizer) :
    Except SimultaneousPerturbationOptimizer SimultaneousPerturbationOptimizer :=
  Optimizer.ResumeOptimization (AdvanceOneStep env) callback o

/-- The accessor that `itkGetConstMacro( CurrentIteration, unsigned long )` declares in
`itkSimultaneousPerturbationOptimizer.h`: the return type is the member's type,
`unsigned long`, of `unsignedLongBits` bits. -/
def GetCurrentIteration (unsignedLongBits : Nat) (o : SimultaneousPerturbationOptimizer) :
    Nat :=
  o.CurrentIteration % 2 ^ unsignedLongBits

end SimultaneousPerturbationOptimizer

end itk

/-! ## The Euler transform component (`elxEulerTransform.hxx`) -/

namespace elastix

/-- The entries of the (transform) parameter file that `EulerTransformElastix` reads.
Each parameter is the list of the values written after its name; entry `i` is present
when the list has more than `i` values. -/
structure Configuration where
  Scales : List ℚ
  CenterOfRotation : List Int
  CenterOfRotationPoint : List ℚ
  Size : List Nat
  Index : List Int
  Spacing : List ℚ
  Origin : List ℚ
  ComputeZYX : List String
  AutomaticTransformInitialization : List String

/-- Modelled from the spec: `Configuration::ReadParameter` (not in the sources), by the
comment in `BeforeRegistration`: it "returns 0 if there is a value given in the
parameter-file, and returns 1 if there is no value given"; the variable passed by
reference keeps its value when nothing is given. Returns the variable and the code. -/
def ReadParameter {α : Type} (entries : List α) (value : α) (i : Nat) : α × Int :=
  match entries.get? i with
  | some v => (v, 0)
  | none => (value, 1)

/-- Modelled from the spec: `GetNumberOfParameters` of the ITK Euler transforms (not in
the sources): 3 parameters in 2D, 6 in 3D; the component exists for `SpaceDimension`
2 and 3 only. -/
def GetNumberOfParameters (SpaceDimension : Nat) : Nat :=
  if SpaceDimension = 2 then 3 else 6

/-- The local `RotationPart` of `BeforeRegistration`. -/
def RotationPart (SpaceDimension : Nat) : Nat :=
  if SpaceDimension = 2 then 1 else 3

/-- The effect of a call of `BeforeRegistration` (Task 2) on the optimizer: the
arguments of the calls of `SetScales`, in order, and the exception raised, if any. -/
structure BeforeRegistrationOutcome where
  SetScalesCalls : List (List ℚ)
  exception : Option String
  deriving DecidableEq

/-- The loop `for ( i = 0; i < n; i++ ) newscales[ i ] = x;`. -/
def fillFirst (newscales : List ℚ) (n : Nat) (x : ℚ) : List ℚ :=
  (List.range n).foldl (fun v i => v.set i x) newscales

/-- The loop `for ( i = 0; i < n; i++ ) ReadParameter( newscales[ i ], "Scales", i );`. -/
def readAllScales (entries : List ℚ) (newscales : List ℚ) (n : Nat) : List ℚ :=
  (List.range n).foldl (fun v i => v.set i (ReadParameter entries (v.getD i 0) i).1) newscales

/-- Task 2 of `EulerTransformElastix::BeforeRegistration`: setting the scales.
(Task 1, the call of `InitializeTransform`, acts on the transform and the registration
only.) -/
def BeforeRegistration (SpaceDimension : Nat) (cfg : Configuration) :
    BeforeRegistrationOutcome :=
  let N := GetNumberOfParameters SpaceDimension
  let newscales : List ℚ := List.replicate N 1
  let dummy : ℚ := 100000
  let returnvalues : List Int :=
    (List.range N).foldl (fun r i => r.set i (ReadParameter cfg.Scales dummy i).2)
      (List.replicate N 5)
  if returnvalues.getD 0 5 = 1 then
    { SetScalesCalls := [fillFirst newscales (RotationPart SpaceDimension) 100000],
      exception := none }
  else if returnvalues.getD 0 5 = 0 ∧ returnvalues.getD 1 5 = 1 then
    let scale : ℚ := (ReadParameter cfg.Scales 100000 0).1
    { SetScalesCalls := [fillFirst newscales (RotationPart SpaceDimension) scale],
      exception := none }
  else if returnvalues.getD 0 5 = 0 ∧ returnvalues.getD (N - 1) 5 = 0 then
    { SetScalesCalls := [readAllScales cfg.Scales newscales N], exception := none }
  else
    { SetScalesCalls := [],
      exception := some "ERROR: The Scales-option in the parameter-file has not been set properly." }

/-- The temporary image of `ReadCenterOfRotationIndex`: region index, region size,
origin and spacing. -/
structure DummyImage where
  index : List Int
  size : List Nat
  origin : List ℚ
  spacing : List ℚ
  deriving DecidableEq

/-- `ReadCenterOfRotationPoint`: the returned flag and the output argument
`rotationPoint`. -/
def ReadCenterOfRotationPoint (SpaceDimension : Nat) (cfg : Configuration)
    (rotationPoint : List ℚ) : Bool × List ℚ :=
  let reads := (List.range SpaceDimension).map
    (fun i => ReadParameter cfg.CenterOfRotationPoint 0 i)
  let centerOfRotationPoint := reads.map Prod.fst
  let centerGivenAsPoint := reads.all (fun r => r.2 == 0)
  if !centerGivenAsPoint then (false, rotationPoint)
  else (true, centerOfRotationPoint)

/-- `ReadCenterOfRotationIndex`: the returned flag and the output argument
`rotationPoint`. `TransformIndexToPhysicalPoint` is the ITK image member function (not
in the sources), taken as a parameter. The message written to the error log when a
size is 0 is not modelled. -/
def ReadCenterOfRotationIndex (TransformIndexToPhysicalPoint : DummyImage → List Int → List ℚ)
    (SpaceDimension : Nat) (cfg : Configuration) (rotationPoint : List ℚ) : Bool × List ℚ :=
  let reads := (List.range SpaceDimension).map
    (fun i => ReadParameter cfg.CenterOfRotation 0 i)
  let centerOfRotationIndex := reads.map Prod.fst
  let centerGivenAsIndex := reads.all (fun r => r.2 == 0)
  if !centerGivenAsIndex then (false, rotationPoint)
  else
    let size := (List.range SpaceDimension).map (fun i => (ReadParameter cfg.Size 0 i).1)
    let index := (List.range SpaceDimension).map (fun i => (ReadParameter cfg.Index 0 i).1)
    let spacing := (List.range SpaceDimension).map (fun i => (ReadParameter cfg.Spacing 1 i).1)
    let origin := (List.range SpaceDimension).map (fun i => (ReadParameter cfg.Origin 0 i).1)
    let illegalSize := size.any (fun s => s == 0)
    if illegalSize then (false, rotationPoint)
    else
      let dummyImage : DummyImage :=
        { index := index, size := size, origin := origin, spacing := spacing }
      (true, TransformIndexToPhysicalPoint dummyImage centerOfRotationIndex)

/-- Calls that `ReadFromFile` makes on the transform and on its superclass. -/
inductive TransformCall
  | SetCenter (center : List ℚ)
  | SetComputeZYX (flag : Bool)
  | SuperclassReadFromFile
  deriving DecidableEq

/-- The effect of a call of `ReadFromFile`: the calls made, in order, and the exception
raised, if any. -/
structure ReadFromFileOutcome where
  calls : List TransformCall
  exception : Option String
  deriving DecidableEq

/-- `EulerTransformElastix::ReadFromFile`. The message written to the error log before
the exception is not modelled. -/
def ReadFromFile (TransformIndexToPhysicalPoint : DummyImage → List Int → List ℚ)
    (SpaceDimension : Nat) (cfg : Configuration) : ReadFromFileOutcome :=
  let centerOfRotationPoint : List ℚ := List.replicate SpaceDimension 0
  let r1 := ReadCenterOfRotationPoint SpaceDimension cfg centerOfRotationPoint
  let pointRead := r1.1
  let r2 :=
    if !pointRead then
      ReadCenterOfRotationIndex TransformIndexToPhysicalPoint SpaceDimension cfg r1.2
    else (false, r1.2)
  let indexRead := r2.1
  if !pointRead && !indexRead then
    { calls := [], exception := some "Transform parameter file is corrupt." }
  else
    let computeZYX : String := (ReadParameter cfg.ComputeZYX "false" 0).1
    let zyxCalls :=
      if SpaceDimension = 3 ∧ computeZYX = "true" then [TransformCall.SetComputeZYX true]
      else []
    { calls := [TransformCall.SetCenter r2.2] ++ zyxCalls ++ [TransformCall.SuperclassReadFromFile],
      exception := none }

/-- Calls that `InitializeTransform` makes on the transform, the warning log, the
transform initializer and the registration. `TransformInitializer` stands for the block
that creates the initializer, hands it the fixed image, the moving image and the
transform, switches `GeometryOn` and calls its `InitializeTransform`;
`SetCenterToTransformedCenter` for
`SetCenter( GetInitialTransform()->TransformPoint( GetCenter() ) )`;
`SetInitialTransformParameters` for the final call with `GetParameters()`. -/
inductive InitializeTransformCall
  | SetIdentity
  | Warning (message : String)
  | TransformInitializer
  | SetTranslation (translation : List ℚ)
  | SetCenter (center : List ℚ)
  | SetCenterToTransformedCenter
  | SetInitialTransformParameters
  deriving DecidableEq

/-- What `InitializeTransform` reads besides the parameter file: the size of the fixed
image, the fixed image's `TransformIndexToPhysicalPoint` (ITK, not in the sources),
whether `this->Superclass1::GetInitialTransform()` is non-null, and
`this->GetUseComposition()`. -/
structure InitializeTransformEnvironment where
  fixedImageSize : List Nat
  TransformIndexToPhysicalPoint : List Int → List ℚ
  InitialTransformIsSet : Bool
  UseComposition : Bool

/-- `EulerTransformElastix::InitializeTransform`: the calls it makes, in order. The
call of `TransformPhysicalPointToIndex`, whose result `indexOfPoint` is not used, is
left out. -/
def InitializeTransform (env : InitializeTransformEnvironment) (SpaceDimension : Nat)
    (cfg : Configuration) : List InitializeTransformCall :=
  let readsI := (List.range SpaceDimension).map
    (fun i => ReadParameter cfg.CenterOfRotation 0 i)
  let readsP := (List.range SpaceDimension).map
    (fun i => ReadParameter cfg.CenterOfRotationPoint 0 i)
  let centerOfRotationIndex : List Int := readsI.map Prod.fst
  let centerOfRotationPoint : List ℚ := readsP.map Prod.fst
  let centerGivenAsIndex := readsI.all (fun r => r.2 == 0)
  let centerGivenAsPoint := readsP.all (fun r => r.2 == 0)
  let CORIndexInImage := (List.range SpaceDimension).all (fun i =>
    !(decide (centerOfRotationIndex.getD i 0 < 0) ||
      decide (centerOfRotationIndex.getD i 0 > (env.fixedImageSize.getD i 0 : Int))))
  let CORPointInImage := (List.range SpaceDimension).all (fun i =>
    !(decide (centerOfRotationPoint.getD i 0 < 0) ||
      decide (centerOfRotationPoint.getD i 0 > (env.fixedImageSize.getD i 0 : ℚ))))
  let indexWarning :=
    if !CORIndexInImage && centerGivenAsIndex then
      [InitializeTransformCall.Warning
        "WARNING: Center of Rotation (index) is not within image boundaries!"]
    else []
  let pointWarning :=
    if !CORPointInImage && centerGivenAsPoint && !centerGivenAsIndex then
      [InitializeTransformCall.Warning
        "WARNING: Center of Rotation (point) is not within image boundaries!"]
    else []
  let automaticTransformInitializationString : String :=
    (ReadParameter cfg.AutomaticTransformInitialization "false" 0).1
  let automaticTransformInitialization : Bool :=
    decide (automaticTransformInitializationString = "true") && !env.InitialTransformIsSet
  let centerGiven := centerGivenAsIndex || centerGivenAsPoint
  let initializer :=
    if !centerGiven || automaticTransformInitialization then
      [InitializeTransformCall.TransformInitializer]
    else []
  let translation :=
    if !automaticTransformInitialization then
      [InitializeTransformCall.SetTranslation (List.replicate SpaceDimension 0)]
    else []
  let center :=
    if centerGiven then
      [InitializeTransformCall.SetCenter
        (if centerGivenAsIndex then env.TransformIndexToPhysicalPoint centerOfRotationIndex
          else centerOfRotationPoint)]
    else []
  let composed :=
    if env.UseComposition && env.InitialTransformIsSet then
      [InitializeTransformCall.SetCenterToTransformedCenter]
    else []
  [InitializeTransformCall.SetIdentity] ++ indexWarning ++ pointWarning ++ initializer
    ++ translation ++ center ++ composed
    ++ [InitializeTransformCall.SetInitialTransformParameters]

end elastix

/-! ## Auxiliary definitions for the statements -/

namespace itk

namespace Optimizer

variable {S : Type}

/-- The object as the iteration loop of a fresh run first sees it: counter reset,
update log emptied, stop flag cleared. -/
def atStart (o : Optimizer S) : Optimizer S :=
  { o with CurrentIteration := 0, history := [], Stop := false }

/-- The object state a member function leaves behind, whether it returned or threw. -/
def finalState : Except (Optimizer S) (Optimizer S) → Optimizer S
  | .ok o => o
  | .error e => e

/-- What the control core relies on from a strategy's `AdvanceOneStep`: a successful
call increments the counter by one, writes the position exactly once, and leaves
`NumberOfIterations` and the stop flag alone; a failing call leaves the counter
alone. -/
structure StepContract (step : Optimizer S → Except (Optimizer S) (Optimizer S)) : Prop where
  ok_iteration : ∀ o o1, step o = .ok o1 → o1.CurrentIteration = o.CurrentIteration + 1
  ok_number : ∀ o o1, step o = .ok o1 → o1.NumberOfIterations = o.NumberOfIterations
  ok_stop : ∀ o o1, step o = .ok o1 → o1.Stop = o.Stop
  ok_history : ∀ o o1, step o = .ok o1 → o1.history = o.history ++ [o1.CurrentPosition]
  error_iteration : ∀ o e, step o = .error e → e.CurrentIteration = o.CurrentIteration

end Optimizer

namespace SimultaneousPerturbationOptimizer

/-- Modelled from the spec: `Compute_a` (declared in the header, body not in the
sources), section 4.4: "a_k = a / (k + 1 + A)^alpha". The power has a real exponent
(0.602 in the scenario of section 8), so the value is a real number and the definition
cannot be executed; the field `Compute_a` of the environment stands for the value a
run obtains from it. -/
noncomputable def Compute_a (a A alpha : ℝ) (k : Nat) : ℝ :=
  a / ((k : ℝ) + 1 + A) ^ alpha

/-- Modelled from the spec: `Compute_c` (declared in the header, body not in the
sources), section 4.4: "c_k = c / (k + 1)^gamma". -/
noncomputable def Compute_c (c gamma : ℝ) (k : Nat) : ℝ :=
  c / ((k : ℝ) + 1) ^ gamma

end SimultaneousPerturbationOptimizer

namespace Optimizer

variable {S : Type}

/-- Resume continuity of a strategy at the object `o` and the iteration count `k`: the
run started with a stop request after `k` iterations returns with the stop flag set,
the counter at `k` and the state `sk` that `k` calls of `AdvanceOneStep` produce;
`ResumeOptimization` then performs the remaining `N - k` calls of `AdvanceOneStep`
from exactly that state, and ends as the uninterrupted run ends. -/
def ResumeContinuity (step : Optimizer S → Except (Optimizer S) (Optimizer S))
    (o : Optimizer S) (k : Nat) : Prop :=
  ∃ sk sN : Optimizer S,
    advanceSteps step k o.atStart = .ok sk ∧
    StartOptimization step (stopAfter k) o = .ok sk.StopOptimization ∧
    sk.CurrentIteration = k ∧
    sk.history.length = k ∧
    advanceSteps step (o.NumberOfIterations - k) sk = .ok sN ∧
    ResumeOptimization step neverStop sk.StopOptimization
      = .ok { sN with StopCondition := .MaximumNumberOfIterations, Stop := true } ∧
    sN.CurrentIteration = o.NumberOfIterations ∧
    sN.history.length = o.NumberOfIterations ∧
    ResumeOptimization step neverStop sk.StopOptimization
      = StartOptimization step neverStop o

end Optimizer

/-! Sample inputs. -/

/-- The cost function `(x - 3)^2` of section 8 of the specification (summed over the
components), with derivative `2 (x - 3)`; it never fails. -/
def sampleQuadratic : CostFunctionType where
  GetValue := fun p => some (p.map (fun x => (x - 3) ^ 2)).sum
  GetValueAndDerivative := fun p =>
    some ((p.map (fun x => (x - 3) ^ 2)).sum, p.map (fun x => 2 * (x - 3)))
  GetNumberOfParameters := 1

/-- A gradient-descent optimizer at position 0 with learning rate 1 and `n` iterations
to go; the counter and the log hold leftovers of an earlier run. -/
def sampleGradientDescent (n : Nat) : GradientDescentOptimizer2 :=
  { CurrentPosition := [0], CurrentIteration := 7, NumberOfIterations := n,
    StopCondition := .MinimumStepSize, Stop := true, history := [[5]],
    strategy := { Value := 0, Gradient := [], SearchDirection := [], LearningRate := 1,
                  Maximize := false } }

/-- An SPSA environment around `sampleQuadratic` with constant gains and a generator
that always draws +1. -/
def sampleEnvironment : SimultaneousPerturbationEnvironment where
  CostFunction := sampleQuadratic
  Compute_a := fun _ => 1
  Compute_c := fun _ => 1
  randomDraws := fun _ => true

/-- An SPSA optimizer at position 0 with `n` iterations to go. -/
def sampleSimultaneousPerturbation (n : Nat) : SimultaneousPerturbationOptimizer :=
  { CurrentPosition := [0], CurrentIteration := 7, NumberOfIterations := n,
    StopCondition := .MaximumNumberOfIterations, Stop := true, history := [[5]],
    strategy := { Gradient := [], Maximize := false, LearningRate := 0,
                  ComputeCurrentValue := false, Value := 0, Delta := [],
                  randomDrawsUsed := 0 } }

end itk

namespace elastix

/-- A parameter file with the given `Scales` entries and nothing else. -/
def sampleScalesFile (scales : List ℚ) : Configuration :=
  { Scales := scales, CenterOfRotation := [], CenterOfRotationPoint := [], Size := [],
    Index := [], Spacing := [], Origin := [], ComputeZYX := [],
    AutomaticTransformInitialization := [] }

/-- A transform parameter file with the given center entries and sizes and nothing
else. -/
def sampleTransformFile (point : List ℚ) (index : List Int) (size : List Nat) :
    Configuration :=
  { Scales := [], CenterOfRotation := index, CenterOfRotationPoint := point, Size := size,
    Index := [], Spacing := [], Origin := [], ComputeZYX := [],
    AutomaticTransformInitialization := [] }

/-- The index-to-point conversion of an image without rotation:
`origin + spacing * index`, component by component. -/
def sampleIndexToPoint (image : DummyImage) (index : List Int) : List ℚ :=
  List.zipWith (fun (os : ℚ × ℚ) (i : Int) => os.1 + os.2 * i)
    (List.zip image.origin image.spacing) index

/-- A parameter file that gives the center of rotation as the point `(1, 2)` and asks
for `AutomaticTransformInitialization`. -/
def sampleAutomaticFile : Configuration :=
  { Scales := [], CenterOfRotation := [], CenterOfRotationPoint := [1, 2], Size := [],
    Index := [], Spacing := [], Origin := [], ComputeZYX := [],
    AutomaticTransformInitialization := ["true"] }

/-- A registration with a 10 x 10 fixed image and with or without an initial
transform. -/
def sampleRegistration (initialTransformIsSet : Bool) : InitializeTransformEnvironment :=
  { fixedImageSize := [10, 10],
    TransformIndexToPhysicalPoint := fun index => index.map (fun i => (i : ℚ)),
    InitialTransformIsSet := initialTransformIsSet,
    UseComposition := true }

/-- The temporary image that `ReadCenterOfRotationIndex` builds from the parameter
file. -/
def dummyImageOf (SpaceDimension : Nat) (cfg : Configuration) : DummyImage :=
  { index := (List.range SpaceDimension).map (fun i => cfg.Index.getD i 0),
    size := (List.range SpaceDimension).map (fun i => cfg.Size.getD i 0),
    origin := (List.range SpaceDimension).map (fun i => cfg.Origin.getD i 0),
    spacing := (List.range SpaceDimension).map (fun i => cfg.Spacing.getD i 1) }

/-- The calls that `ReadFromFile` makes after `SetCenter`. -/
def callsAfterSetCenter (SpaceDimension : Nat) (cfg : Configuration) : List TransformCall :=
  (if SpaceDimension = 3 ∧ cfg.ComputeZYX.getD 0 "false" = "true"
    then [TransformCall.SetComputeZYX true] else [])
  ++ [TransformCall.SuperclassReadFromFile]

end elastix

/-! ## Lemmas on the control core -/

namespace itk

namespace Optimizer

variable {S : Type}

theorem iterationLoop_of_done (step : Optimizer S → Except (Optimizer S) (Optimizer S))
    (cb : Optimizer S → Bool) (fuel : Nat) (o : Optimizer S)
    (h : ¬ (o.CurrentIteration < o.NumberOfIterations ∧ o.Stop = false)) :
    iterationLoop step cb fuel o = .ok o := by
  cases fuel with
  | zero => rfl
  | succ n => simp only [iterationLoop, if_neg h]

theorem iterationLoop_step_ok (step : Optimizer S → Except (Optimizer S) (Optimizer S))
    (cb : Optimizer S → Bool) (fuel : Nat) (o o1 : Optimizer S)
    (hg : o.CurrentIteration < o.NumberOfIterations ∧ o.Stop = false)
    (hs : step o = .ok o1) :
    iterationLoop step cb (fuel + 1) o
      = iterationLoop step cb fuel (if cb o1 then o1.StopOptimization else o1) := by
  simp only [iterationLoop, if_pos hg, hs]

theorem iterationLoop_step_error (step : Optimizer S → Except (Optimizer S) (Optimizer S))
    (cb : Optimizer S → Bool) (fuel : Nat) (o e : Optimizer S)
    (hg : o.CurrentIteration < o.NumberOfIterations ∧ o.Stop = false)
    (hs : step o = .error e) :
    iterationLoop step cb (fuel + 1) o
      = .error { e with StopCondition := .MetricError, Stop := true } := by
  simp only [iterationLoop, if_pos hg, hs]

theorem advanceSteps_ok_fields {step : Optimizer S → Except (Optimizer S) (Optimizer S)}
    (hc : StepContract step) :
    ∀ (n : Nat) (o o1 : Optimizer S), advanceSteps step n o = .ok o1 →
      o1.CurrentIteration = o.CurrentIteration + n ∧
      o1.NumberOfIterations = o.NumberOfIterations ∧
      o1.Stop = o.Stop ∧
      o1.history.length = o.history.length + n := by
  intro n
  induction n with
  | zero =>
    intro o o1 h
    simp only [advanceSteps, Except.ok.injEq] at h
    subst h
    simp
  | succ n ih =>
    intro o o1 h
    simp only [advanceSteps] at h
    cases hs : step o with
    | error e => rw [hs] at h; cases h
    | ok o2 =>
      rw [hs] at h
      obtain ⟨h1, h2, h3, h4⟩ := ih o2 o1 h
      have hh := hc.ok_history o o2 hs
      refine ⟨?_, ?_, ?_, ?_⟩
      · rw [h1, hc.ok_iteration o o2 hs]; omega
      · rw [h2, hc.ok_number o o2 hs]
      · rw [h3, hc.ok_stop o o2 hs]
      · rw [h4, hh]; simp; omega

theorem advanceSteps_total {step : Optimizer S → Except (Optimizer S) (Optimizer S)}
    (hok : ∀ o, ∃ o1, step o = .ok o1) :
    ∀ (n : Nat) (o : Optimizer S), ∃ o1, advanceSteps step n o = .ok o1 := by
  intro n
  induction n with
  | zero => intro o; exact ⟨o, rfl⟩
  | succ n ih =>
    intro o
    obtain ⟨o2, hs⟩ := hok o
    obtain ⟨o1, h1⟩ := ih o2
    exact ⟨o1, by simp only [advanceSteps, hs, h1]⟩

/-- With no stop request the loop returns what `N - CurrentIteration` successful steps
produce. -/
theorem iterationLoop_neverStop_ok {step : Optimizer S → Except (Optimizer S) (Optimizer S)}
    (hc : StepContract step) :
    ∀ (n fuel : Nat) (o o1 : Optimizer S), o.Stop = false →
      o.CurrentIteration + n = o.NumberOfIterations → n ≤ fuel →
      advanceSteps step n o = .ok o1 →
      iterationLoop step neverStop fuel o = .ok o1 := by
  intro n
  induction n with
  | zero =>
    intro fuel o o1 _ hn _ h
    simp only [advanceSteps, Except.ok.injEq] at h
    subst h
    exact iterationLoop_of_done step neverStop fuel o (by omega)
  | succ n ih =>
    intro fuel o o1 hstop hn hfuel h
    obtain ⟨fuel, rfl⟩ : ∃ m, fuel = m + 1 := ⟨fuel - 1, by omega⟩
    simp only [advanceSteps] at h
    cases hs : step o with
    | error e => rw [hs] at h; cases h
    | ok o2 =>
      rw [hs] at h
      rw [iterationLoop_step_ok step neverStop fuel o o2 ⟨by omega, hstop⟩ hs]
      simp only [neverStop, Bool.false_eq_true, if_false]
      refine ih fuel o2 o1 ?_ ?_ (by omega) h
      · rw [hc.ok_stop o o2 hs, hstop]
      · rw [hc.ok_iteration o o2 hs, hc.ok_number o o2 hs]; omega

end Optimizer

end itk

/-! ## Lemmas on the two strategies -/

namespace itk

theorem gradientDescent_step_ok_iff (f : CostFunctionType) (o o1 : GradientDescentOptimizer2) :
    GradientDescentOptimizer2.AdvanceOneStep f o = .ok o1 ↔
      ∃ v g, f.GetValueAndDerivative o.CurrentPosition = some (v, g) ∧
        o1 = { o with
          CurrentPosition := GradientDescentOptimizer2.UpdatePosition o.strategy.LearningRate
            o.CurrentPosition (GradientDescentOptimizer2.ComputeSearchDirection o.strategy.Maximize g),
          history := o.history ++ [GradientDescentOptimizer2.UpdatePosition o.strategy.LearningRate
            o.CurrentPosition (GradientDescentOptimizer2.ComputeSearchDirection o.strategy.Maximize g)],
          CurrentIteration := o.CurrentIteration + 1,
          strategy := { o.strategy with
            Value := v, Gradient := g,
            SearchDirection := GradientDescentOptimizer2.ComputeSearchDirection o.strategy.Maximize g } } := by
  unfold GradientDescentOptimizer2.AdvanceOneStep
  cases h : f.GetValueAndDerivative o.CurrentPosition with
  | none => simp
  | some vg =>
    obtain ⟨v, g⟩ := vg
    simp only [Optimizer.SetCurrentPosition, Except.ok.injEq, Option.some.injEq, Prod.mk.injEq]
    constructor
    · intro h1; exact ⟨v, g, ⟨rfl, rfl⟩, h1.symm⟩
    · rintro ⟨v1, g1, ⟨rfl, rfl⟩, h1⟩; exact h1.symm

theorem gradientDescent_step_error_iff (f : CostFunctionType) (o e : GradientDescentOptimizer2) :
    GradientDescentOptimizer2.AdvanceOneStep f o = .error e ↔
      f.GetValueAndDerivative o.CurrentPosition = none ∧
        e = { o with StopCondition := .MetricError } := by
  unfold GradientDescentOptimizer2.AdvanceOneStep
  cases h : f.GetValueAndDerivative o.CurrentPosition with
  | none =>
    simp only [Except.error.injEq, true_and]
    exact ⟨fun h1 => h1.symm, fun h1 => h1.symm⟩
  | some vg => simp

theorem gradientDescent_contract (f : CostFunctionType) :
    Optimizer.StepContract (GradientDescentOptimizer2.AdvanceOneStep f) where
  ok_iteration := by
    intro o o1 h
    obtain ⟨v, g, _, rfl⟩ := (gradientDescent_step_ok_iff f o o1).1 h
    rfl
  ok_number := by
    intro o o1 h
    obtain ⟨v, g, _, rfl⟩ := (gradientDescent_step_ok_iff f o o1).1 h
    rfl
  ok_stop := by
    intro o o1 h
    obtain ⟨v, g, _, rfl⟩ := (gradientDescent_step_ok_iff f o o1).1 h
    rfl
  ok_history := by
    intro o o1 h
    obtain ⟨v, g, _, rfl⟩ := (gradientDescent_step_ok_iff f o o1).1 h
    rfl
  error_iteration := by
    intro o e h
    obtain ⟨_, rfl⟩ := (gradientDescent_step_error_iff f o e).1 h
    rfl

theorem gradientDescent_step_total (f : CostFunctionType)
    (hf : ∀ p, f.GetValueAndDerivative p ≠ none) (o : GradientDescentOptimizer2) :
    ∃ o1, GradientDescentOptimizer2.AdvanceOneStep f o = .ok o1 := by
  cases h : f.GetValueAndDerivative o.CurrentPosition with
  | none => exact absurd h (hf _)
  | some vg =>
    obtain ⟨v, g⟩ := vg
    exact ⟨_, (gradientDescent_step_ok_iff f o _).2 ⟨v, g, h, rfl⟩⟩

theorem spsa_contract (env : SimultaneousPerturbationEnvironment) :
    Optimizer.StepContract (SimultaneousPerturbationOptimizer.AdvanceOneStep env) where
  ok_iteration := by
    intro o o1 h
    unfold SimultaneousPerturbationOptimizer.AdvanceOneStep at h
    simp only at h
    split at h
    · cases h
    · split at h
      · cases h
      · split at h
        · split at h
          · cases h
          · cases h; rfl
        · cases h; rfl
  ok_number := by
    intro o o1 h
    unfold SimultaneousPerturbationOptimizer.AdvanceOneStep at h
    simp only at h
    split at h
    · cases h
    · split at h
      · cases h
      · split at h
        · split at h
          · cases h
          · cases h; rfl
        · cases h; rfl
  ok_stop := by
    intro o o1 h
    unfold SimultaneousPerturbationOptimizer.AdvanceOneStep at h
    simp only at h
    split at h
    · cases h
    · split at h
      · cases h
      · split at h
        · split at h
          · cases h
          · cases h; rfl
        · cases h; rfl
  ok_history := by
    intro o o1 h
    unfold SimultaneousPerturbationOptimizer.AdvanceOneStep at h
    simp only at h
    split at h
    · cases h
    · split at h
      · cases h
      · split at h
        · split at h
          · cases h
          · cases h; rfl
        · cases h; rfl
  error_iteration := by
    intro o e h
    unfold SimultaneousPerturbationOptimizer.AdvanceOneStep at h
    simp only at h
    split at h
    · cases h; rfl
    · split at h
      · cases h; rfl
      · split at h
        · split at h
          · cases h; rfl
          · cases h
        · cases h

theorem spsa_step_total (env : SimultaneousPerturbationEnvironment)
    (hf : ∀ p, env.CostFunction.GetValue p ≠ none) (o : SimultaneousPerturbationOptimizer) :
    ∃ o1, SimultaneousPerturbationOptimizer.AdvanceOneStep env o = .ok o1 := by
  unfold SimultaneousPerturbationOptimizer.AdvanceOneStep
  simp only
  split
  · rename_i h; exact absurd h (hf _)
  · split
    · rename_i h; exact absurd h (hf _)
    · split
      · split
        · rename_i h; exact absurd h (hf _)
        · exact ⟨_, rfl⟩
      · exact ⟨_, rfl⟩

/-- After a successful SPSA step `m_LearningRate` holds the gain `a_k` that the step
used. -/
theorem spsa_learningRate_is_gain (env : SimultaneousPerturbationEnvironment)
    (o o1 : SimultaneousPerturbationOptimizer)
    (h : SimultaneousPerturbationOptimizer.AdvanceOneStep env o = .ok o1) :
    o1.strategy.LearningRate = env.Compute_a (o.CurrentIteration + 1) := by
  unfold SimultaneousPerturbationOptimizer.AdvanceOneStep at h
  simp only at h
  split at h
  · cases h
  · split at h
    · cases h
    · split at h
      · split at h
        · cases h
        · cases h; rfl
      · cases h; rfl

/-- A successful SPSA step writes the position with the gain that `m_LearningRate`
reports and the gradient estimate that `m_Gradient` holds. -/
theorem spsa_step_uses_learningRate (env : SimultaneousPerturbationEnvironment)
    (o o1 : SimultaneousPerturbationOptimizer)
    (h : SimultaneousPerturbationOptimizer.AdvanceOneStep env o = .ok o1) :
    o1.CurrentPosition = SimultaneousPerturbationOptimizer.UpdatePosition o.strategy.Maximize
      o1.strategy.LearningRate o.CurrentPosition o1.strategy.Gradient := by
  unfold SimultaneousPerturbationOptimizer.AdvanceOneStep at h
  simp only at h
  split at h
  · cases h
  · split at h
    · cases h
    · split at h
      · split at h
        · cases h
        · cases h; rfl
      · cases h; rfl

end itk

/-! ## Lemmas on complete runs -/

namespace itk

namespace Optimizer

variable {S : Type}

theorem clear_stop_eq (o : Optimizer S) (h : o.Stop = false) :
    ({ o with Stop := false } : Optimizer S) = o := by
  cases o
  simp only at h
  subst h
  rfl

theorem clear_stop_stopOptimization (o : Optimizer S) (h : o.Stop = false) :
    ({ o.StopOptimization with Stop := false } : Optimizer S) = o := by
  cases o
  simp only at h
  subst h
  rfl

/-- A run that is resumed without stop requests and in which the remaining steps all
succeed returns the state after these steps, marked as having reached the maximum. -/
theorem resumeOptimization_neverStop_ok {step : Optimizer S → Except (Optimizer S) (Optimizer S)}
    (hc : StepContract step) (o oN : Optimizer S)
    (hle : o.CurrentIteration ≤ o.NumberOfIterations)
    (h : advanceSteps step (o.NumberOfIterations - o.CurrentIteration)
      { o with Stop := false } = .ok oN) :
    ResumeOptimization step neverStop o
      = .ok { oN with StopCondition := .MaximumNumberOfIterations, Stop := true } := by
  have hl := iterationLoop_neverStop_ok hc (o.NumberOfIterations - o.CurrentIteration)
    (o.NumberOfIterations - o.CurrentIteration) { o with Stop := false } oN rfl
    (by simp only; omega) (le_refl _) h
  obtain ⟨h1, h2, _, _⟩ := advanceSteps_ok_fields hc _ _ _ h
  simp only at h1 h2
  unfold ResumeOptimization
  rw [hl]
  simp only
  rw [if_neg (by omega)]

/-- The loop with a stop request after `k` iterations stops there when the steps up to
then succeed. -/
theorem iterationLoop_stopAfter {step : Optimizer S → Except (Optimizer S) (Optimizer S)}
    (hc : StepContract step) (k : Nat) :
    ∀ (m fuel : Nat) (o ok : Optimizer S), o.Stop = false →
      o.CurrentIteration + (m + 1) = k → k ≤ o.NumberOfIterations → m + 1 ≤ fuel →
      advanceSteps step (m + 1) o = .ok ok →
      iterationLoop step (stopAfter k) fuel o = .ok ok.StopOptimization := by
  intro m
  induction m with
  | zero =>
    intro fuel o ok hstop hk hN hfuel h
    obtain ⟨fuel, rfl⟩ : ∃ m, fuel = m + 1 := ⟨fuel - 1, by omega⟩
    simp only [advanceSteps] at h
    cases hs : step o with
    | error e => rw [hs] at h; cases h
    | ok o2 =>
      rw [hs] at h
      simp only [Except.ok.injEq] at h
      subst h
      rw [iterationLoop_step_ok step (stopAfter k) fuel o o2 ⟨by omega, hstop⟩ hs]
      have hi := hc.ok_iteration o o2 hs
      have hcb : stopAfter k o2 = true := by
        simp only [stopAfter, beq_iff_eq]; omega
      rw [if_pos hcb]
      exact iterationLoop_of_done step (stopAfter k) fuel _ (by simp [StopOptimization])
  | succ m ih =>
    intro fuel o ok hstop hk hN hfuel h
    obtain ⟨fuel, rfl⟩ : ∃ m, fuel = m + 1 := ⟨fuel - 1, by omega⟩
    rw [advanceSteps] at h
    cases hs : step o with
    | error e => rw [hs] at h; cases h
    | ok o2 =>
      rw [hs] at h
      simp only at h
      rw [iterationLoop_step_ok step (stopAfter k) fuel o o2 ⟨by omega, hstop⟩ hs]
      have hi := hc.ok_iteration o o2 hs
      have hcb : ¬ (stopAfter k o2 = true) := by
        simp only [stopAfter, beq_iff_eq]; omega
      rw [if_neg hcb]
      refine ih fuel o2 ok ?_ ?_ ?_ (by omega) h
      · rw [hc.ok_stop o o2 hs, hstop]
      · omega
      · rw [hc.ok_number o o2 hs]; exact hN

/-- Continuing, without further stop requests, from where a loop with a stop request
after `k` iterations returned gives what the loop without the stop request gives. -/
theorem iterationLoop_resume {step : Optimizer S → Except (Optimizer S) (Optimizer S)}
    (hc : StepContract step) (k : Nat) :
    ∀ (fuel : Nat) (o o1 : Optimizer S), o.Stop = false →
      fuel = o.NumberOfIterations - o.CurrentIteration →
      iterationLoop step (stopAfter k) fuel o = .ok o1 →
      iterationLoop step neverStop (o1.NumberOfIterations - o1.CurrentIteration)
          { o1 with Stop := false }
        = iterationLoop step neverStop fuel o ∧
      o1.NumberOfIterations = o.NumberOfIterations := by
  intro fuel
  induction fuel with
  | zero =>
    intro o o1 hstop hfuel h
    simp only [iterationLoop, Except.ok.injEq] at h
    subst h
    rw [clear_stop_eq o hstop, ← hfuel]
    exact ⟨rfl, rfl⟩
  | succ fuel ih =>
    intro o o1 hstop hfuel h
    have hg : o.CurrentIteration < o.NumberOfIterations ∧ o.Stop = false := ⟨by omega, hstop⟩
    cases hs : step o with
    | error e =>
      rw [iterationLoop_step_error step (stopAfter k) fuel o e hg hs] at h
      cases h
    | ok o2 =>
      rw [iterationLoop_step_ok step (stopAfter k) fuel o o2 hg hs] at h
      rw [iterationLoop_step_ok step neverStop fuel o o2 hg hs]
      simp only [neverStop, Bool.false_eq_true, if_false]
      have hi := hc.ok_iteration o o2 hs
      have hn := hc.ok_number o o2 hs
      have hst : o2.Stop = false := by rw [hc.ok_stop o o2 hs, hstop]
      by_cases hcb : stopAfter k o2 = true
      · rw [if_pos hcb,
          iterationLoop_of_done step (stopAfter k) fuel _ (by simp [StopOptimization])] at h
        simp only [Except.ok.injEq] at h
        subst h
        rw [clear_stop_stopOptimization o2 hst]
        have hf : o2.StopOptimization.NumberOfIterations - o2.StopOptimization.CurrentIteration
            = fuel := by
          simp only [StopOptimization]; omega
        rw [hf]
        exact ⟨rfl, hn⟩
      · rw [if_neg hcb] at h
        obtain ⟨h1, h2⟩ := ih o2 o1 hst (by omega) h
        exact ⟨h1, by rw [h2, hn]⟩

theorem resumeOptimization_unfold (step : Optimizer S → Except (Optimizer S) (Optimizer S))
    (cb : Optimizer S → Bool) (o : Optimizer S) :
    ResumeOptimization step cb o =
      match iterationLoop step cb (o.NumberOfIterations - o.CurrentIteration)
          { o with Stop := false } with
      | .error e => .error e
      | .ok o1 =>
        if o1.CurrentIteration < o1.NumberOfIterations then .ok o1
        else .ok { o1 with StopCondition := .MaximumNumberOfIterations, Stop := true } := rfl

theorem startOptimization_unfold (step : Optimizer S → Except (Optimizer S) (Optimizer S))
    (cb : Optimizer S → Bool) (o : Optimizer S) :
    StartOptimization step cb o =
      match iterationLoop step cb (o.NumberOfIterations - 0) (atStart o) with
      | .error e => .error e
      | .ok o1 =>
        if o1.CurrentIteration < o1.NumberOfIterations then .ok o1
        else .ok { o1 with StopCondition := .MaximumNumberOfIterations, Stop := true } := rfl

/-- Resume continuity for the control core: if a run with a stop request after `k`
iterations returns, resuming it gives the result of the uninterrupted run. -/
theorem resume_after_stop_eq_uninterrupted
    {step : Optimizer S → Except (Optimizer S) (Optimizer S)}
    (hc : StepContract step) (k : Nat) (o o1 : Optimizer S)
    (h : StartOptimization step (stopAfter k) o = .ok o1) :
    ResumeOptimization step neverStop o1 = StartOptimization step neverStop o := by
  rw [startOptimization_unfold] at h
  rw [startOptimization_unfold]
  cases hl : iterationLoop step (stopAfter k) (o.NumberOfIterations - 0) (atStart o) with
  | error e => rw [hl] at h; cases h
  | ok o2 =>
    rw [hl] at h
    simp only at h
    obtain ⟨hr, _⟩ :=
      iterationLoop_resume hc k (o.NumberOfIterations - 0) (atStart o) o2 rfl rfl hl
    rw [← hr]
    by_cases hlt : o2.CurrentIteration < o2.NumberOfIterations
    · rw [if_pos hlt] at h
      simp only [Except.ok.injEq] at h
      subst h
      rfl
    · rw [if_neg hlt] at h
      simp only [Except.ok.injEq] at h
      subst h
      rw [resumeOptimization_unfold]
      have hz : o2.NumberOfIterations - o2.CurrentIteration = 0 := by omega
      simp only [hz, iterationLoop, if_neg hlt]

theorem resumeContinuity_of_total {step : Optimizer S → Except (Optimizer S) (Optimizer S)}
    (hc : StepContract step) (htot : ∀ o, ∃ o1, step o = .ok o1)
    (o : Optimizer S) (k : Nat) (hk1 : 1 ≤ k) (hk : k < o.NumberOfIterations) :
    ResumeContinuity step o k := by
  obtain ⟨sk, hsk⟩ := advanceSteps_total htot k o.atStart
  obtain ⟨sN, hsN⟩ := advanceSteps_total htot (o.NumberOfIterations - k) sk
  obtain ⟨a1, a2, a3, a4⟩ := advanceSteps_ok_fields hc _ _ _ hsk
  obtain ⟨b1, b2, b3, b4⟩ := advanceSteps_ok_fields hc _ _ _ hsN
  simp only [atStart, List.length_nil, Nat.zero_add] at a1 a2 a3 a4
  obtain ⟨m, rfl⟩ : ∃ m, k = m + 1 := ⟨k - 1, by omega⟩
  have hloop := iterationLoop_stopAfter hc (m + 1) m (o.NumberOfIterations - 0) o.atStart sk rfl
    (by simp [atStart]) (by simp only [atStart]; omega) (by omega) hsk
  have hstart : StartOptimization step (stopAfter (m + 1)) o = .ok sk.StopOptimization := by
    rw [startOptimization_unfold, hloop]
    simp only
    rw [if_pos (by simp only [StopOptimization]; omega)]
  have hres : ResumeOptimization step neverStop sk.StopOptimization
      = .ok { sN with StopCondition := .MaximumNumberOfIterations, Stop := true } := by
    refine resumeOptimization_neverStop_ok hc sk.StopOptimization sN ?_ ?_
    · simp only [StopOptimization]; omega
    · rw [clear_stop_stopOptimization sk a3]
      simp only [StopOptimization]
      rw [a1, a2]
      exact hsN
  refine ⟨sk, sN, hsk, hstart, a1, a4, hsN, hres, ?_, ?_, ?_⟩
  · rw [b1, a1]; omega
  · rw [b4, a4]; omega
  · exact resume_after_stop_eq_uninterrupted hc (m + 1) o _ hstart

end Optimizer

theorem gradientDescent_zero_rate_step (f : CostFunctionType)
    (hdim : ∀ p v g, f.GetValueAndDerivative p = some (v, g) → g.length = p.length)
    (o o1 : GradientDescentOptimizer2) (hz : o.strategy.LearningRate = 0)
    (h : GradientDescentOptimizer2.AdvanceOneStep f o = .ok o1) :
    o1.CurrentPosition = o.CurrentPosition ∧ o1.strategy.LearningRate = 0 := by
  obtain ⟨v, g, hg, rfl⟩ := (gradientDescent_step_ok_iff f o o1).1 h
  refine ⟨?_, hz⟩
  have hlen := hdim _ _ _ hg
  have hd : (GradientDescentOptimizer2.ComputeSearchDirection o.strategy.Maximize g).length
      = o.CurrentPosition.length := by
    unfold GradientDescentOptimizer2.ComputeSearchDirection
    split <;> simp [hlen]
  simp only [GradientDescentOptimizer2.UpdatePosition, hz, zero_mul, add_zero]
  generalize GradientDescentOptimizer2.ComputeSearchDirection o.strategy.Maximize g = d at hd
  generalize o.CurrentPosition = p at hd
  induction p generalizing d with
  | nil => simp
  | cons x xs ih =>
    cases d with
    | nil => simp at hd
    | cons y ys =>
      simp only [List.zipWith_cons_cons, List.cons.injEq, true_and]
      exact ih ys (by simpa using hd)

theorem gradientDescent_zero_rate_loop (f : CostFunctionType)
    (hdim : ∀ p v g, f.GetValueAndDerivative p = some (v, g) → g.length = p.length)
    (cb : GradientDescentOptimizer2 → Bool) :
    ∀ (fuel : Nat) (o : GradientDescentOptimizer2), o.strategy.LearningRate = 0 →
      (Optimizer.finalState (Optimizer.iterationLoop
        (GradientDescentOptimizer2.AdvanceOneStep f) cb fuel o)).CurrentPosition
        = o.CurrentPosition := by
  intro fuel
  induction fuel with
  | zero => intro o _; rfl
  | succ fuel ih =>
    intro o hz
    by_cases hg : o.CurrentIteration < o.NumberOfIterations ∧ o.Stop = false
    · cases hs : GradientDescentOptimizer2.AdvanceOneStep f o with
      | error e =>
        rw [Optimizer.iterationLoop_step_error _ cb fuel o e hg hs]
        obtain ⟨_, rfl⟩ := (gradientDescent_step_error_iff f o e).1 hs
        rfl
      | ok o1 =>
        rw [Optimizer.iterationLoop_step_ok _ cb fuel o o1 hg hs]
        obtain ⟨hp, hz1⟩ := gradientDescent_zero_rate_step f hdim o o1 hz hs
        by_cases hcb : cb o1 = true
        · rw [if_pos hcb, ih o1.StopOptimization hz1]
          exact hp
        · rw [if_neg hcb, ih o1 hz1]
          exact hp
    · rw [Optimizer.iterationLoop_of_done _ cb (fuel + 1) o hg]
      rfl

theorem finalState_resume_position {S : Type}
    (step : Optimizer S → Except (Optimizer S) (Optimizer S)) (cb : Optimizer S → Bool)
    (o : Optimizer S) :
    (Optimizer.finalState (Optimizer.ResumeOptimization step cb o)).CurrentPosition
      = (Optimizer.finalState (Optimizer.iterationLoop step cb
          (o.NumberOfIterations - o.CurrentIteration) { o with Stop := false })).CurrentPosition := by
  rw [Optimizer.resumeOptimization_unfold]
  cases Optimizer.iterationLoop step cb (o.NumberOfIterations - o.CurrentIteration)
      { o with Stop := false } with
  | error e => rfl
  | ok o1 =>
    simp only
    split <;> rfl

end itk

/-! ## The claims on the optimizers -/

namespace itk

/-- C1: for every `NumberOfIterations = N` (also 0) and every cost function that never
fails, the gradient-descent run started with `StartOptimization` returns; its final
state is the one that exactly `N` consecutive calls of `AdvanceOneStep` produce from
the start state, it has logged exactly `N` position updates, `CurrentIteration = N`
and `StopCondition = MaximumNumberOfIterations`; for `N = 0` no position was written
and the position is the caller's. -/
theorem gradientDescent_run_exactly_N_updates (f : CostFunctionType)
    (o : GradientDescentOptimizer2) (hf : ∀ p, f.GetValueAndDerivative p ≠ none) :
    ∃ sN oN : GradientDescentOptimizer2,
      Optimizer.advanceSteps (GradientDescentOptimizer2.AdvanceOneStep f)
        o.NumberOfIterations o.atStart = .ok sN ∧
      oN = { sN with StopCondition := .MaximumNumberOfIterations, Stop := true } ∧
      GradientDescentOptimizer2.StartOptimization f Optimizer.neverStop o = .ok oN ∧
      oN.history.length = o.NumberOfIterations ∧
      oN.CurrentIteration = o.NumberOfIterations ∧
      oN.StopCondition = .MaximumNumberOfIterations ∧
      (o.NumberOfIterations = 0 →
        oN.CurrentPosition = o.CurrentPosition ∧ oN.history = []) := by
  have hc := gradientDescent_contract f
  obtain ⟨sN, hsN⟩ := Optimizer.advanceSteps_total (gradientDescent_step_total f hf)
    o.NumberOfIterations o.atStart
  obtain ⟨a1, _, _, a4⟩ := Optimizer.advanceSteps_ok_fields hc _ _ _ hsN
  refine ⟨sN, _, hsN, rfl, ?_, ?_, ?_, rfl, ?_⟩
  · exact Optimizer.resumeOptimization_neverStop_ok hc o.atStart sN (Nat.zero_le _) hsN
  · simpa [Optimizer.atStart] using a4
  · simpa [Optimizer.atStart] using a1
  · intro h0
    rw [h0] at hsN
    simp only [Optimizer.advanceSteps, Except.ok.injEq] at hsN
    subst hsN
    exact ⟨rfl, rfl⟩

theorem gradientDescent_run_exactly_N_updates_witness :
    ∃ sN oN : GradientDescentOptimizer2,
      Optimizer.advanceSteps (GradientDescentOptimizer2.AdvanceOneStep sampleQuadratic)
        (sampleGradientDescent 3).NumberOfIterations (sampleGradientDescent 3).atStart = .ok sN ∧
      oN = { sN with StopCondition := .MaximumNumberOfIterations, Stop := true } ∧
      GradientDescentOptimizer2.StartOptimization sampleQuadratic Optimizer.neverStop
        (sampleGradientDescent 3) = .ok oN ∧
      oN.history.length = (sampleGradientDescent 3).NumberOfIterations ∧
      oN.CurrentIteration = (sampleGradientDescent 3).NumberOfIterations ∧
      oN.StopCondition = .MaximumNumberOfIterations ∧
      ((sampleGradientDescent 3).NumberOfIterations = 0 →
        oN.CurrentPosition = (sampleGradientDescent 3).CurrentPosition ∧ oN.history = []) :=
  gradientDescent_run_exactly_N_updates sampleQuadratic (sampleGradientDescent 3)
    (by intro p; simp [sampleQuadratic])

/-- C3: one gradient-descent `AdvanceOneStep` on a successful evaluation `(v, g)` sets
`SearchDirection` to `g` (maximization) or `-g` (minimization) and replaces the position
`p` by `p + LearningRate * SearchDirection`, component by component; and for
`LearningRate = 0` (the derivative having as many components as the position) the
position a run leaves, whatever `N`, the stop requests and the failures of the cost
function, is the initial position. -/
theorem gradientDescent_update_formula :
    (∀ (f : CostFunctionType) (o : GradientDescentOptimizer2) (v : ℚ) (g : DerivativeType),
      f.GetValueAndDerivative o.CurrentPosition = some (v, g) →
      ∃ o1, GradientDescentOptimizer2.AdvanceOneStep f o = .ok o1 ∧
        o1.strategy.SearchDirection
          = (if o.strategy.Maximize then g else g.map (fun x => -x)) ∧
        o1.CurrentPosition = List.zipWith (fun x d => x + o.strategy.LearningRate * d)
          o.CurrentPosition o1.strategy.SearchDirection ∧
        (g.length = o.CurrentPosition.length →
          o1.CurrentPosition.length = o.CurrentPosition.length ∧
          ∀ i, i < o.CurrentPosition.length →
            o1.CurrentPosition.getD i 0 = o.CurrentPosition.getD i 0
              + o.strategy.LearningRate * o1.strategy.SearchDirection.getD i 0)) ∧
    (∀ (f : CostFunctionType) (cb : GradientDescentOptimizer2 → Bool)
        (o : GradientDescentOptimizer2),
      o.strategy.LearningRate = 0 →
      (∀ p v g, f.GetValueAndDerivative p = some (v, g) → g.length = p.length) →
      (Optimizer.finalState
        (GradientDescentOptimizer2.StartOptimization f cb o)).CurrentPosition
        = o.CurrentPosition) := by
  constructor
  · intro f o v g hg
    refine ⟨_, (gradientDescent_step_ok_iff f o _).2 ⟨v, g, hg, rfl⟩, rfl, rfl, ?_⟩
    intro hlen
    have hd : (GradientDescentOptimizer2.ComputeSearchDirection o.strategy.Maximize g).length
        = o.CurrentPosition.length := by
      unfold GradientDescentOptimizer2.ComputeSearchDirection
      split <;> simp [hlen]
    constructor
    · simp [GradientDescentOptimizer2.UpdatePosition, hd]
    · intro i hi
      have hi2 : i < (GradientDescentOptimizer2.ComputeSearchDirection
          o.strategy.Maximize g).length := by rw [hd]; exact hi
      simp [GradientDescentOptimizer2.UpdatePosition, List.getElem?_zipWith,
        List.getElem?_eq_getElem hi, List.getElem?_eq_getElem hi2]
  · intro f cb o hz hdim
    show (Optimizer.finalState (Optimizer.ResumeOptimization _ cb
      { o with CurrentIteration := 0, history := [] })).CurrentPosition = o.CurrentPosition
    rw [finalState_resume_position]
    exact gradientDescent_zero_rate_loop f hdim cb _ _ hz

theorem gradientDescent_update_formula_witness :
    (∃ o1, GradientDescentOptimizer2.AdvanceOneStep sampleQuadratic (sampleGradientDescent 3)
        = .ok o1 ∧ o1.CurrentPosition = [0 + 1 * -(2 * (0 - 3))]) ∧
    (Optimizer.finalState (GradientDescentOptimizer2.StartOptimization sampleQuadratic
      Optimizer.neverStop { sampleGradientDescent 3 with
        strategy := { (sampleGradientDescent 3).strategy with LearningRate := 0 } })).CurrentPosition
      = [0] := by
  constructor
  · obtain ⟨o1, h1, _, h3, _⟩ := gradientDescent_update_formula.1 sampleQuadratic
      (sampleGradientDescent 3) (([0].map (fun x : ℚ => (x - 3) ^ 2)).sum)
      ([0].map (fun x : ℚ => 2 * (x - 3))) (by simp [sampleQuadratic, sampleGradientDescent])
    refine ⟨o1, h1, ?_⟩
    rw [h3]
    have hs := (gradientDescent_step_ok_iff sampleQuadratic (sampleGradientDescent 3) o1).1 h1
    obtain ⟨v, g, hg, rfl⟩ := hs
    simp [sampleQuadratic, sampleGradientDescent] at hg
    obtain ⟨_, rfl⟩ := hg
    simp [sampleGradientDescent, GradientDescentOptimizer2.ComputeSearchDirection]
  · exact gradientDescent_update_formula.2 sampleQuadratic Optimizer.neverStop _ rfl
      (by intro p v g h; simp [sampleQuadratic] at h; rw [← h.2]; simp)

/-- C4: resume continuity, for both strategies. If the cost function never fails and
`StopOptimization` is called during the iteration that completes `k` iterations
(`1 ≤ k < N`), `StartOptimization` returns with `CurrentIteration = k`, exactly `k`
position updates and the state that `k` calls of `AdvanceOneStep` produce;
`ResumeOptimization` then makes exactly the remaining `N - k` calls of `AdvanceOneStep`
from that state (counter not reset, no extra update, no rewind) and ends with
`CurrentIteration = N` and `N` logged updates. And for every `k` and every cost
function: whenever the run with the stop request returns, resuming it ends in exactly
the outcome of the uninterrupted run (same final state, so same position and same
iteration count, or the same error). -/
theorem resume_continuity :
    (∀ (f : CostFunctionType) (o : GradientDescentOptimizer2) (k : Nat),
      1 ≤ k → k < o.NumberOfIterations → (∀ p, f.GetValueAndDerivative p ≠ none) →
      Optimizer.ResumeContinuity (GradientDescentOptimizer2.AdvanceOneStep f) o k) ∧
    (∀ (f : CostFunctionType) (o o1 : GradientDescentOptimizer2) (k : Nat),
      GradientDescentOptimizer2.StartOptimization f (Optimizer.stopAfter k) o = .ok o1 →
      GradientDescentOptimizer2.ResumeOptimization f Optimizer.neverStop o1
        = GradientDescentOptimizer2.StartOptimization f Optimizer.neverStop o) ∧
    (∀ (env : SimultaneousPerturbationEnvironment) (o : SimultaneousPerturbationOptimizer)
        (k : Nat),
      1 ≤ k → k < o.NumberOfIterations → (∀ p, env.CostFunction.GetValue p ≠ none) →
      Optimizer.ResumeContinuity (SimultaneousPerturbationOptimizer.AdvanceOneStep env) o k) ∧
    (∀ (env : SimultaneousPerturbationEnvironment) (o o1 : SimultaneousPerturbationOptimizer)
        (k : Nat),
      SimultaneousPerturbationOptimizer.StartOptimization env (Optimizer.stopAfter k) o = .ok o1 →
      SimultaneousPerturbationOptimizer.ResumeOptimization env Optimizer.neverStop o1
        = SimultaneousPerturbationOptimizer.StartOptimization env Optimizer.neverStop o) := by
  refine ⟨?_, ?_, ?_, ?_⟩
  · intro f o k hk1 hk hf
    exact Optimizer.resumeContinuity_of_total (gradientDescent_contract f)
      (gradientDescent_step_total f hf) o k hk1 hk
  · intro f o o1 k h
    exact Optimizer.resume_after_stop_eq_uninterrupted (gradientDescent_contract f) k o o1 h
  · intro env o k hk1 hk hf
    exact Optimizer.resumeContinuity_of_total (spsa_contract env)
      (spsa_step_total env hf) o k hk1 hk
  · intro env o o1 k h
    exact Optimizer.resume_after_stop_eq_uninterrupted (spsa_contract env) k o o1 h

theorem resume_continuity_witness :
    Optimizer.ResumeContinuity (GradientDescentOptimizer2.AdvanceOneStep sampleQuadratic)
        (sampleGradientDescent 3) 1 ∧
      Optimizer.ResumeContinuity
        (SimultaneousPerturbationOptimizer.AdvanceOneStep sampleEnvironment)
        (sampleSimultaneousPerturbation 3) 2 :=
  ⟨resume_continuity.1 sampleQuadratic (sampleGradientDescent 3) 1 (by decide)
      (by simp [sampleGradientDescent]) (by intro p; simp [sampleQuadratic]),
    resume_continuity.2.2.1 sampleEnvironment (sampleSimultaneousPerturbation 3) 2 (by decide)
      (by simp [sampleSimultaneousPerturbation])
      (by intro p; simp [sampleEnvironment, sampleQuadratic])⟩

end itk

/-! ## Lemmas on the Euler transform component -/

namespace elastix

theorem readParameter_code {α : Type} (l : List α) (d : α) (i : Nat) :
    (ReadParameter l d i).2 = if i < l.length then 0 else 1 := by
  unfold ReadParameter
  cases h : l.get? i with
  | none =>
    have := List.get?_eq_none.1 h
    simp only
    rw [if_neg (by omega)]
  | some v =>
    have : i < l.length := by
      by_contra hc
      rw [List.get?_eq_none.2 (by omega)] at h
      cases h
    simp only
    rw [if_pos this]

theorem readParameter_value {α : Type} (l : List α) (d : α) (i : Nat) :
    (ReadParameter l d i).1 = l.getD i d := by
  unfold ReadParameter
  cases h : l.get? i with
  | none => simp only [List.get?_eq_getElem?] at h; simp [h]
  | some v => simp only [List.get?_eq_getElem?] at h; simp [h]

/-- The four cases of `BeforeRegistration` by the number of `Scales` entries. -/
theorem beforeRegistration_cases (SpaceDimension : Nat) (cfg : Configuration) :
    (cfg.Scales = [] → BeforeRegistration SpaceDimension cfg =
      { SetScalesCalls := [List.replicate (RotationPart SpaceDimension) 100000 ++
          List.replicate (GetNumberOfParameters SpaceDimension - RotationPart SpaceDimension) 1],
        exception := none }) ∧
    (∀ s, cfg.Scales = [s] → BeforeRegistration SpaceDimension cfg =
      { SetScalesCalls := [List.replicate (RotationPart SpaceDimension) s ++
          List.replicate (GetNumberOfParameters SpaceDimension - RotationPart SpaceDimension) 1],
        exception := none }) ∧
    (GetNumberOfParameters SpaceDimension ≤ cfg.Scales.length →
      BeforeRegistration SpaceDimension cfg =
      { SetScalesCalls := [cfg.Scales.take (GetNumberOfParameters SpaceDimension)],
        exception := none }) ∧
    (1 < cfg.Scales.length → cfg.Scales.length < GetNumberOfParameters SpaceDimension →
      BeforeRegistration SpaceDimension cfg =
      { SetScalesCalls := [],
        exception := some "ERROR: The Scales-option in the parameter-file has not been set properly." }) := by
  by_cases h2 : SpaceDimension = 2
  · subst h2
    refine ⟨?_, ?_, ?_, ?_⟩
    · intro h
      simp [BeforeRegistration, GetNumberOfParameters, RotationPart, List.range_succ,
        fillFirst, readAllScales, readParameter_code, readParameter_value, h, List.replicate]
    · intro s h
      simp [BeforeRegistration, GetNumberOfParameters, RotationPart, List.range_succ,
        fillFirst, readAllScales, readParameter_code, readParameter_value, h, List.replicate]
    · intro h
      simp only [GetNumberOfParameters, if_true] at h
      obtain ⟨a, b, c, r, hr⟩ : ∃ a b c r, cfg.Scales = a :: b :: c :: r := by
        match hs : cfg.Scales, h with
        | a :: b :: c :: r, _ => exact ⟨a, b, c, r, rfl⟩
      simp [BeforeRegistration, GetNumberOfParameters, RotationPart, List.range_succ,
        fillFirst, readAllScales, readParameter_code, readParameter_value, hr, List.replicate]
    · intro h1 h3
      simp only [GetNumberOfParameters, if_true] at h3
      have hne : cfg.Scales ≠ [] := by intro h; simp [h] at h1
      simp [BeforeRegistration, GetNumberOfParameters, RotationPart, List.range_succ,
        fillFirst, readAllScales, readParameter_code, readParameter_value, List.replicate]
      rw [if_neg hne, if_neg (fun h => by have := h.2; omega),
        if_neg (fun h => by have := h.2; omega)]
  · refine ⟨?_, ?_, ?_, ?_⟩
    · intro h
      simp [BeforeRegistration, GetNumberOfParameters, RotationPart, List.range_succ,
        fillFirst, readAllScales, readParameter_code, readParameter_value, h, List.replicate, h2]
    · intro s h
      simp [BeforeRegistration, GetNumberOfParameters, RotationPart, List.range_succ,
        fillFirst, readAllScales, readParameter_code, readParameter_value, h, List.replicate, h2]
    · intro h
      simp only [GetNumberOfParameters, if_neg h2] at h
      obtain ⟨a, b, c, d, e, f, r, hr⟩ :
          ∃ a b c d e f r, cfg.Scales = a :: b :: c :: d :: e :: f :: r := by
        match hs : cfg.Scales, h with
        | a :: b :: c :: d :: e :: f :: r, _ => exact ⟨a, b, c, d, e, f, r, rfl⟩
      simp [BeforeRegistration, GetNumberOfParameters, RotationPart, List.range_succ,
        fillFirst, readAllScales, readParameter_code, readParameter_value, hr, List.replicate, h2]
    · intro h1 h3
      simp only [GetNumberOfParameters, if_neg h2] at h3
      have hne : cfg.Scales ≠ [] := by intro h; simp [h] at h1
      simp [BeforeRegistration, GetNumberOfParameters, RotationPart, List.range_succ,
        fillFirst, readAllScales, readParameter_code, readParameter_value, List.replicate, h2]
      rw [if_neg hne, if_neg (fun h => by have := h.2; omega),
        if_neg (fun h => by have := h.2; omega)]

theorem range_map_getD_eq_take {α : Type} (l : List α) (d : α) (n : Nat) (h : n ≤ l.length) :
    (List.range n).map (fun i => l.getD i d) = l.take n := by
  apply List.ext_getElem
  · simp [h]
  · intro i h1 h2
    simp at h1 h2
    simp [List.getElem_take, List.getElem?_eq_getElem (show i < l.length by omega)]

theorem reads_all_present {α : Type} (l : List α) (d : α) (n : Nat) :
    ((List.range n).map (fun i => ReadParameter l d i)).all (fun r => r.2 == 0) = true
      ↔ n ≤ l.length := by
  simp only [List.all_eq_true, List.mem_map, List.mem_range, beq_iff_eq]
  constructor
  · intro h
    by_contra hc
    have hn : n - 1 < n := by omega
    have := h (ReadParameter l d (n - 1)) ⟨n - 1, hn, rfl⟩
    rw [readParameter_code] at this
    rw [if_neg (by omega)] at this
    cases this
  · rintro h r ⟨i, hi, rfl⟩
    rw [readParameter_code, if_pos (by omega)]

theorem readCenterOfRotationPoint_eq (SpaceDimension : Nat) (cfg : Configuration)
    (rotationPoint : List ℚ) :
    ReadCenterOfRotationPoint SpaceDimension cfg rotationPoint =
      if SpaceDimension ≤ cfg.CenterOfRotationPoint.length
      then (true, cfg.CenterOfRotationPoint.take SpaceDimension)
      else (false, rotationPoint) := by
  unfold ReadCenterOfRotationPoint
  simp only
  by_cases h : SpaceDimension ≤ cfg.CenterOfRotationPoint.length
  · rw [if_pos h, (reads_all_present _ _ _).2 h]
    simp only [Bool.not_true, Bool.false_eq_true, if_false, List.map_map]
    congr 1
    rw [← range_map_getD_eq_take _ 0 _ h]
    apply List.map_congr_left
    intro i _
    simp [readParameter_value]
  · rw [if_neg h]
    have : ((List.range SpaceDimension).map
        (fun i => ReadParameter cfg.CenterOfRotationPoint 0 i)).all (fun r => r.2 == 0) = false := by
      rw [Bool.eq_false_iff]
      intro hc
      exact h ((reads_all_present _ _ _).1 hc)
    rw [this]
    rfl

theorem readCenterOfRotationIndex_eq
    (T : DummyImage → List Int → List ℚ) (SpaceDimension : Nat) (cfg : Configuration)
    (rotationPoint : List ℚ) :
    ReadCenterOfRotationIndex T SpaceDimension cfg rotationPoint =
      if SpaceDimension ≤ cfg.CenterOfRotation.length ∧
          ∀ i, i < SpaceDimension → cfg.Size.getD i 0 ≠ 0
      then (true, T (dummyImageOf SpaceDimension cfg) (cfg.CenterOfRotation.take SpaceDimension))
      else (false, rotationPoint) := by
  unfold ReadCenterOfRotationIndex
  simp only
  by_cases h : SpaceDimension ≤ cfg.CenterOfRotation.length
  · rw [(reads_all_present _ _ _).2 h]
    simp only [Bool.not_true, Bool.false_eq_true, if_false, List.map_map]
    by_cases hs : ∀ i, i < SpaceDimension → cfg.Size.getD i 0 ≠ 0
    · have hcond : SpaceDimension ≤ cfg.CenterOfRotation.length ∧
          ∀ i, i < SpaceDimension → cfg.Size.getD i 0 ≠ 0 := ⟨h, hs⟩
      rw [if_pos hcond]
      have hany : ((List.range SpaceDimension).map (fun i => (ReadParameter cfg.Size 0 i).1)).any
          (fun s => s == 0) = false := by
        rw [Bool.eq_false_iff]
        intro hc
        simp only [List.any_eq_true, List.mem_map, List.mem_range, beq_iff_eq] at hc
        obtain ⟨s, ⟨i, hi, rfl⟩, h0⟩ := hc
        rw [readParameter_value] at h0
        exact hs i hi h0
      rw [hany]
      simp only [Bool.false_eq_true, if_false, Prod.mk.injEq, true_and]
      have hidx : (List.range SpaceDimension).map (Prod.fst ∘ fun i =>
          ReadParameter cfg.CenterOfRotation 0 i) = cfg.CenterOfRotation.take SpaceDimension := by
        rw [← range_map_getD_eq_take _ 0 _ h]
        apply List.map_congr_left
        intro i _
        simp [readParameter_value]
      rw [hidx]
      congr 1
      simp only [dummyImageOf, readParameter_value]
    · have hcond : ¬ (SpaceDimension ≤ cfg.CenterOfRotation.length ∧
          ∀ i, i < SpaceDimension → cfg.Size.getD i 0 ≠ 0) := fun hc => hs hc.2
      rw [if_neg hcond]
      have hany : ((List.range SpaceDimension).map (fun i => (ReadParameter cfg.Size 0 i).1)).any
          (fun s => s == 0) = true := by
        simp only [List.any_eq_true, List.mem_map, List.mem_range, beq_iff_eq]
        push_neg at hs
        obtain ⟨i, hi, h0⟩ := hs
        exact ⟨_, ⟨i, hi, rfl⟩, by rw [readParameter_value]; exact h0⟩
      rw [hany]
      rfl
  · have hcond : ¬ (SpaceDimension ≤ cfg.CenterOfRotation.length ∧
        ∀ i, i < SpaceDimension → cfg.Size.getD i 0 ≠ 0) := fun hc => h hc.1
    rw [if_neg hcond]
    have : ((List.range SpaceDimension).map
        (fun i => ReadParameter cfg.CenterOfRotation 0 i)).all (fun r => r.2 == 0) = false := by
      rw [Bool.eq_false_iff]
      intro hc
      exact h ((reads_all_present _ _ _).1 hc)
    rw [this]
    rfl

end elastix

/-! ## The claims on the perturbation vector and on the Euler transform component -/

namespace itk

/-- C6: for every space dimension `d` and every outcome of the random draws,
`GenerateDelta(d)` leaves in `m_Delta` a vector of length `d` whose every component is
`-1` or `+1`, never `0`; so, the gain `c_k` being non-zero, no divisor
`2 · c_k · Δ[i]` of the SPSA gradient estimate is zero. -/
theorem generateDelta_components_are_signs (env : SimultaneousPerturbationEnvironment)
    (o : SimultaneousPerturbationOptimizer) (d : Nat) :
    (SimultaneousPerturbationOptimizer.GenerateDelta env o d).strategy.Delta.length = d ∧
    (∀ x ∈ (SimultaneousPerturbationOptimizer.GenerateDelta env o d).strategy.Delta,
      (x = -1 ∨ x = 1) ∧ x ≠ 0) ∧
    (∀ ck : ℚ, ck ≠ 0 →
      ∀ x ∈ (SimultaneousPerturbationOptimizer.GenerateDelta env o d).strategy.Delta,
        2 * ck * x ≠ 0) := by
  have hsign : ∀ x ∈ (SimultaneousPerturbationOptimizer.GenerateDelta env o d).strategy.Delta,
      x = -1 ∨ x = 1 := by
    intro x hx
    simp only [SimultaneousPerturbationOptimizer.GenerateDelta,
      SimultaneousPerturbationOptimizer.GenerateDeltaVector, List.mem_map, List.mem_range] at hx
    obtain ⟨i, _, rfl⟩ := hx
    split
    · exact Or.inr rfl
    · exact Or.inl rfl
  have hne : ∀ x ∈ (SimultaneousPerturbationOptimizer.GenerateDelta env o d).strategy.Delta,
      x ≠ 0 := by
    intro x hx
    rcases hsign x hx with h | h <;> rw [h] <;> norm_num
  refine ⟨?_, fun x hx => ⟨hsign x hx, hne x hx⟩, ?_⟩
  · simp [SimultaneousPerturbationOptimizer.GenerateDelta,
      SimultaneousPerturbationOptimizer.GenerateDeltaVector]
  · intro ck hck x hx
    exact mul_ne_zero (mul_ne_zero (by norm_num) hck) (hne x hx)

theorem generateDelta_components_are_signs_witness :
    (SimultaneousPerturbationOptimizer.GenerateDelta sampleEnvironment
      (sampleSimultaneousPerturbation 3) 2).strategy.Delta.length = 2 ∧
    (∀ x ∈ (SimultaneousPerturbationOptimizer.GenerateDelta sampleEnvironment
      (sampleSimultaneousPerturbation 3) 2).strategy.Delta, 2 * (1 : ℚ) * x ≠ 0) :=
  ⟨(generateDelta_components_are_signs sampleEnvironment (sampleSimultaneousPerturbation 3) 2).1,
    (generateDelta_components_are_signs sampleEnvironment
      (sampleSimultaneousPerturbation 3) 2).2.2 1 (by norm_num)⟩

end itk

namespace elastix

/-- C7 as stated fails: with `(Scales -5.0)` in a 3D parameter file, a file whose
`Scales` option has an entry `≤ 0`, `BeforeRegistration` raises nothing and calls
`SetScales` with `(-5, -5, -5, 1, 1, 1)`, a vector that is not positive throughout. -/
theorem beforeRegistration_passes_nonpositive_scale :
    (∃ x ∈ (sampleScalesFile [-5]).Scales, x ≤ 0) ∧
    (BeforeRegistration 3 (sampleScalesFile [-5])).exception = none ∧
    (BeforeRegistration 3 (sampleScalesFile [-5])).SetScalesCalls = [[-5, -5, -5, 1, 1, 1]] ∧
    ¬ (∀ v ∈ (BeforeRegistration 3 (sampleScalesFile [-5])).SetScalesCalls, ∀ x ∈ v, 0 < x) := by
  have h := (beforeRegistration_cases 3 (sampleScalesFile [-5])).2.1 (-5) rfl
  rw [h]
  refine ⟨⟨-5, by simp [sampleScalesFile], by norm_num⟩, rfl, ?_, ?_⟩
  · simp [RotationPart, GetNumberOfParameters, List.replicate]
  · intro hall
    have := hall _ (List.mem_singleton.2 rfl) (-5)
      (by simp [RotationPart, GetNumberOfParameters, List.replicate])
    norm_num at this

/-- C7, amended: `BeforeRegistration` does not look at the sign of a scale. When it
raises nothing, the vector it passes to `SetScales` has all entries `> 0` exactly when
the `Scales` entries of the parameter file that it uses (the first `N` given ones) are
all `> 0`. -/
theorem beforeRegistration_scales_positive_iff (SpaceDimension : Nat) (cfg : Configuration)
    (h : (BeforeRegistration SpaceDimension cfg).exception = none) :
    (∀ v ∈ (BeforeRegistration SpaceDimension cfg).SetScalesCalls, ∀ x ∈ v, 0 < x) ↔
      (∀ x ∈ cfg.Scales.take (GetNumberOfParameters SpaceDimension), 0 < x) := by
  obtain ⟨c0, c1, cN, cerr⟩ := beforeRegistration_cases SpaceDimension cfg
  have hR : 1 ≤ RotationPart SpaceDimension := by
    unfold RotationPart; split <;> omega
  have hN : 1 ≤ GetNumberOfParameters SpaceDimension := by
    unfold GetNumberOfParameters; split <;> omega
  by_cases hk0 : cfg.Scales = []
  · rw [c0 hk0, hk0]
    simp only [List.mem_singleton, forall_eq, List.mem_append, List.mem_replicate,
      List.take_nil, List.not_mem_nil, false_implies, implies_true, iff_true]
    rintro x (⟨_, rfl⟩ | ⟨_, rfl⟩) <;> norm_num
  · by_cases hk1 : cfg.Scales.length = 1
    · obtain ⟨s, hs⟩ : ∃ s, cfg.Scales = [s] := List.length_eq_one.1 hk1
      rw [c1 s hs, hs]
      obtain ⟨n, hn⟩ : ∃ n, GetNumberOfParameters SpaceDimension = n + 1 :=
        ⟨GetNumberOfParameters SpaceDimension - 1, by omega⟩
      simp only [List.mem_singleton, forall_eq, List.mem_append, List.mem_replicate, hn,
        List.take_succ_cons, List.take_nil]
      constructor
      · intro hall
        exact hall s (Or.inl ⟨by omega, rfl⟩)
      · rintro hs0 x (⟨_, rfl⟩ | ⟨_, rfl⟩)
        · exact hs0
        · norm_num
    · by_cases hkN : GetNumberOfParameters SpaceDimension ≤ cfg.Scales.length
      · rw [cN hkN]
        simp only [List.mem_singleton, forall_eq]
      · have hlen : 1 < cfg.Scales.length := by
          have : cfg.Scales.length ≠ 0 := fun h0 => hk0 (List.length_eq_zero.1 h0)
          omega
        rw [cerr hlen (by omega)] at h
        cases h

theorem beforeRegistration_scales_positive_iff_witness :
    (BeforeRegistration 3 (sampleScalesFile [2])).exception = none ∧
    ((∀ v ∈ (BeforeRegistration 3 (sampleScalesFile [2])).SetScalesCalls, ∀ x ∈ v, 0 < x) ↔
      (∀ x ∈ (sampleScalesFile [2]).Scales.take (GetNumberOfParameters 3), 0 < x)) :=
  ⟨by rw [(beforeRegistration_cases 3 (sampleScalesFile [2])).2.1 2 rfl],
    beforeRegistration_scales_positive_iff 3 (sampleScalesFile [2])
      (by rw [(beforeRegistration_cases 3 (sampleScalesFile [2])).2.1 2 rfl])⟩

/-- C8: the scale vector that `BeforeRegistration` passes to `SetScales`, with `N` the
number of parameters and `R` the number of rotation parameters (`R = 1`, `N = 3` in 2D;
`R = 3`, `N = 6` in 3D): (1) no `Scales` entry: `R` times 100000, then 1.0 up to `N`;
(2) exactly one entry `s`: `R` times `s`, then 1.0 up to `N`; (3) the `N` entries
given: the first `N` given values, in order. In each case `SetScales` is called once
and nothing is raised. -/
theorem beforeRegistration_scale_vector (SpaceDimension : Nat) (cfg : Configuration) :
    (RotationPart 2 = 1 ∧ GetNumberOfParameters 2 = 3 ∧
      RotationPart 3 = 3 ∧ GetNumberOfParameters 3 = 6) ∧
    (cfg.Scales = [] → BeforeRegistration SpaceDimension cfg =
      { SetScalesCalls := [List.replicate (RotationPart SpaceDimension) 100000 ++
          List.replicate (GetNumberOfParameters SpaceDimension - RotationPart SpaceDimension) 1],
        exception := none }) ∧
    (∀ s, cfg.Scales = [s] → BeforeRegistration SpaceDimension cfg =
      { SetScalesCalls := [List.replicate (RotationPart SpaceDimension) s ++
          List.replicate (GetNumberOfParameters SpaceDimension - RotationPart SpaceDimension) 1],
        exception := none }) ∧
    (GetNumberOfParameters SpaceDimension ≤ cfg.Scales.length →
      (BeforeRegistration SpaceDimension cfg =
        { SetScalesCalls := [cfg.Scales.take (GetNumberOfParameters SpaceDimension)],
          exception := none }) ∧
      ∀ i, i < GetNumberOfParameters SpaceDimension →
        (cfg.Scales.take (GetNumberOfParameters SpaceDimension))[i]? = cfg.Scales[i]?) := by
  obtain ⟨c0, c1, cN, _⟩ := beforeRegistration_cases SpaceDimension cfg
  refine ⟨⟨rfl, rfl, rfl, rfl⟩, c0, c1, fun h => ⟨cN h, ?_⟩⟩
  intro i hi
  rw [List.getElem?_take_of_lt hi]

theorem beforeRegistration_scale_vector_witness :
    BeforeRegistration 3 (sampleScalesFile []) =
      { SetScalesCalls := [List.replicate (RotationPart 3) 100000 ++
          List.replicate (GetNumberOfParameters 3 - RotationPart 3) 1],
        exception := none } ∧
    BeforeRegistration 2 (sampleScalesFile [7]) =
      { SetScalesCalls := [List.replicate (RotationPart 2) 7 ++
          List.replicate (GetNumberOfParameters 2 - RotationPart 2) 1],
        exception := none } ∧
    BeforeRegistration 2 (sampleScalesFile [7, 8, 9]) =
      { SetScalesCalls := [(sampleScalesFile [7, 8, 9]).Scales.take (GetNumberOfParameters 2)],
        exception := none } :=
  ⟨(beforeRegistration_scale_vector 3 (sampleScalesFile [])).2.1 rfl,
    (beforeRegistration_scale_vector 2 (sampleScalesFile [7])).2.2.1 7 rfl,
    ((beforeRegistration_scale_vector 2 (sampleScalesFile [7, 8, 9])).2.2.2 (by decide)).1⟩

/-- C9: for a parameter file whose `Scales` list has exactly `k` entries and `N`
parameters, `BeforeRegistration` raises the exception "The Scales-option in the
parameter-file has not been set properly" if and only if `1 < k < N`; it raises no
other exception; when it raises, `SetScales` is not called; for `k` equal to 0, 1 or
`N` (and for `k > N`) it does not raise and calls `SetScales` exactly once. -/
theorem beforeRegistration_raises_iff (SpaceDimension : Nat) (cfg : Configuration) :
    ((BeforeRegistration SpaceDimension cfg).exception
        = some "ERROR: The Scales-option in the parameter-file has not been set properly."
      ↔ 1 < cfg.Scales.length ∧ cfg.Scales.length < GetNumberOfParameters SpaceDimension) ∧
    ((BeforeRegistration SpaceDimension cfg).exception ≠ none
      ↔ 1 < cfg.Scales.length ∧ cfg.Scales.length < GetNumberOfParameters SpaceDimension) ∧
    ((BeforeRegistration SpaceDimension cfg).exception ≠ none →
      (BeforeRegistration SpaceDimension cfg).SetScalesCalls = []) ∧
    ((cfg.Scales.length = 0 ∨ cfg.Scales.length = 1 ∨
        GetNumberOfParameters SpaceDimension ≤ cfg.Scales.length) →
      (BeforeRegistration SpaceDimension cfg).exception = none ∧
      (BeforeRegistration SpaceDimension cfg).SetScalesCalls.length = 1) := by
  obtain ⟨c0, c1, cN, cerr⟩ := beforeRegistration_cases SpaceDimension cfg
  have hN : 2 ≤ GetNumberOfParameters SpaceDimension := by
    unfold GetNumberOfParameters; split <;> omega
  by_cases hk0 : cfg.Scales = []
  · have hl : cfg.Scales.length = 0 := by rw [hk0]; rfl
    rw [c0 hk0]
    simp [hl]
  · have hl0 : cfg.Scales.length ≠ 0 := fun h0 => hk0 (List.length_eq_zero.1 h0)
    by_cases hk1 : cfg.Scales.length = 1
    · obtain ⟨s, hs⟩ : ∃ s, cfg.Scales = [s] := List.length_eq_one.1 hk1
      rw [c1 s hs]
      simp [hk1]
    · by_cases hkN : GetNumberOfParameters SpaceDimension ≤ cfg.Scales.length
      · rw [cN hkN]
        simp only [reduceCtorEq, ne_eq, not_true_eq_false, false_iff, not_and, not_lt,
          false_implies, List.length_singleton, and_self, implies_true, and_true]
        exact fun _ => hkN
      · rw [cerr (by omega) (by omega)]
        simp only [true_iff, ne_eq, reduceCtorEq, not_false_eq_true, implies_true, true_and,
          false_and, imp_false, not_or]
        exact ⟨⟨by omega, by omega⟩, ⟨by omega, by omega⟩, hl0, hk1, hkN⟩

theorem beforeRegistration_raises_iff_witness :
    (BeforeRegistration 3 (sampleScalesFile [1, 2])).exception
        = some "ERROR: The Scales-option in the parameter-file has not been set properly." ∧
    (BeforeRegistration 3 (sampleScalesFile [1, 2])).SetScalesCalls = [] :=
  ⟨(beforeRegistration_raises_iff 3 (sampleScalesFile [1, 2])).1.2 ⟨by decide, by decide⟩,
    (beforeRegistration_raises_iff 3 (sampleScalesFile [1, 2])).2.2.1
      (by rw [(beforeRegistration_raises_iff 3 (sampleScalesFile [1, 2])).1.2
        ⟨by decide, by decide⟩]; exact Option.some_ne_none _)⟩

/-- The outcome of `ReadFromFile` in its three cases. -/
theorem readFromFile_cases (T : DummyImage → List Int → List ℚ) (SpaceDimension : Nat)
    (cfg : Configuration) :
    ReadFromFile T SpaceDimension cfg =
      if SpaceDimension ≤ cfg.CenterOfRotationPoint.length then
        { calls := TransformCall.SetCenter (cfg.CenterOfRotationPoint.take SpaceDimension)
            :: callsAfterSetCenter SpaceDimension cfg,
          exception := none }
      else if SpaceDimension ≤ cfg.CenterOfRotation.length ∧
          ∀ i, i < SpaceDimension → cfg.Size.getD i 0 ≠ 0 then
        { calls := TransformCall.SetCenter
              (T (dummyImageOf SpaceDimension cfg) (cfg.CenterOfRotation.take SpaceDimension))
            :: callsAfterSetCenter SpaceDimension cfg,
          exception := none }
      else { calls := [], exception := some "Transform parameter file is corrupt." } := by
  unfold ReadFromFile
  simp only [readCenterOfRotationPoint_eq, readCenterOfRotationIndex_eq, readParameter_value,
    callsAfterSetCenter, List.getD_eq_getElem?_getD, ne_eq]
  by_cases hp : SpaceDimension ≤ cfg.CenterOfRotationPoint.length
  · simp [hp]
  · by_cases h1 : SpaceDimension ≤ cfg.CenterOfRotation.length
    · by_cases h2 : ∀ i, i < SpaceDimension → ¬ cfg.Size[i]?.getD 0 = 0
      · simp [hp, h1, eq_true h2]
      · simp [hp, h1, eq_false h2]
    · simp [hp, h1]

/-- C10: `ReadFromFile` chooses the center of rotation as documented. If every
`CenterOfRotationPoint` component is present (`ReadCenterOfRotationPoint` succeeds), the
center is set to that point, whatever the `CenterOfRotation` index entries are.
Otherwise, if `ReadCenterOfRotationIndex` succeeds, which it does exactly when every
index component is present and every `Size` component is non-zero, the center is set
to the converted index. The exception "Transform parameter file is corrupt." is raised
if and only if neither read succeeds, no other exception is raised, and when it is
raised neither `SetCenter` nor the superclass `ReadFromFile` has been called. -/
theorem readFromFile_center_of_rotation (T : DummyImage → List Int → List ℚ)
    (SpaceDimension : Nat) (cfg : Configuration) :
    ((ReadCenterOfRotationPoint SpaceDimension cfg (List.replicate SpaceDimension 0)).1 = true
      ↔ SpaceDimension ≤ cfg.CenterOfRotationPoint.length) ∧
    ((ReadCenterOfRotationIndex T SpaceDimension cfg (List.replicate SpaceDimension 0)).1 = true
      ↔ SpaceDimension ≤ cfg.CenterOfRotation.length ∧
        ∀ i, i < SpaceDimension → cfg.Size.getD i 0 ≠ 0) ∧
    (SpaceDimension ≤ cfg.CenterOfRotationPoint.length →
      ReadFromFile T SpaceDimension cfg =
        { calls := TransformCall.SetCenter (cfg.CenterOfRotationPoint.take SpaceDimension)
            :: callsAfterSetCenter SpaceDimension cfg,
          exception := none }) ∧
    (¬ SpaceDimension ≤ cfg.CenterOfRotationPoint.length →
      (SpaceDimension ≤ cfg.CenterOfRotation.length ∧
        ∀ i, i < SpaceDimension → cfg.Size.getD i 0 ≠ 0) →
      ReadFromFile T SpaceDimension cfg =
        { calls := TransformCall.SetCenter
              (T (dummyImageOf SpaceDimension cfg) (cfg.CenterOfRotation.take SpaceDimension))
            :: callsAfterSetCenter SpaceDimension cfg,
          exception := none }) ∧
    ((ReadFromFile T SpaceDimension cfg).exception = some "Transform parameter file is corrupt."
      ↔ (ReadCenterOfRotationPoint SpaceDimension cfg (List.replicate SpaceDimension 0)).1 = false ∧
        (ReadCenterOfRotationIndex T SpaceDimension cfg (List.replicate SpaceDimension 0)).1
          = false) ∧
    ((ReadFromFile T SpaceDimension cfg).exception ≠ none →
      (ReadFromFile T SpaceDimension cfg).exception = some "Transform parameter file is corrupt."
      ∧ (ReadFromFile T SpaceDimension cfg).calls = []) ∧
    TransformCall.SuperclassReadFromFile ∈ callsAfterSetCenter SpaceDimension cfg := by
  rw [readFromFile_cases, readCenterOfRotationPoint_eq, readCenterOfRotationIndex_eq]
  simp only [List.getD_eq_getElem?_getD, ne_eq]
  by_cases hp : SpaceDimension ≤ cfg.CenterOfRotationPoint.length
  · by_cases h1 : SpaceDimension ≤ cfg.CenterOfRotation.length
    · by_cases h2 : ∀ i, i < SpaceDimension → ¬ cfg.Size[i]?.getD 0 = 0
      · simp [hp, h1, eq_true h2, callsAfterSetCenter]
      · simp [hp, h1, eq_false h2, callsAfterSetCenter]
    · simp [hp, h1, callsAfterSetCenter]
  · by_cases h1 : SpaceDimension ≤ cfg.CenterOfRotation.length
    · by_cases h2 : ∀ i, i < SpaceDimension → ¬ cfg.Size[i]?.getD 0 = 0
      · simp [hp, h1, eq_true h2, callsAfterSetCenter]
      · simp [hp, h1, eq_false h2, callsAfterSetCenter]
    · simp [hp, h1, callsAfterSetCenter]

theorem readFromFile_center_of_rotation_witness :
    ReadFromFile sampleIndexToPoint 3 (sampleTransformFile [1, 2, 3] [4, 5, 6] []) =
        { calls := TransformCall.SetCenter
              ((sampleTransformFile [1, 2, 3] [4, 5, 6] []).CenterOfRotationPoint.take 3)
            :: callsAfterSetCenter 3 (sampleTransformFile [1, 2, 3] [4, 5, 6] []),
          exception := none } ∧
    (ReadFromFile sampleIndexToPoint 3 (sampleTransformFile [1, 2] [4, 5, 6] [7, 0, 7])).exception
      = some "Transform parameter file is corrupt." :=
  ⟨(readFromFile_center_of_rotation sampleIndexToPoint 3
      (sampleTransformFile [1, 2, 3] [4, 5, 6] [])).2.2.1 (by decide),
    (readFromFile_center_of_rotation sampleIndexToPoint 3
      (sampleTransformFile [1, 2] [4, 5, 6] [7, 0, 7])).2.2.2.2.1.2
      ⟨by rw [readCenterOfRotationPoint_eq]; decide,
        by
          rw [readCenterOfRotationIndex_eq]
          have h : ¬ (3 ≤ (sampleTransformFile [1, 2] [4, 5, 6] [7, 0, 7]).CenterOfRotation.length ∧
              ∀ i, i < 3 → (sampleTransformFile [1, 2] [4, 5, 6] [7, 0, 7]).Size.getD i 0 ≠ 0) :=
            fun hc => hc.2 1 (by decide) (by decide)
          rw [if_neg h]⟩⟩

end elastix

/-! ## Lemmas and claims on `InitializeTransform` and on `GetCurrentIteration` -/

namespace elastix

theorem reads_all_present_eq {α : Type} (l : List α) (d : α) (n : Nat) :
    ((List.range n).map (fun i => ReadParameter l d i)).all (fun r => r.2 == 0)
      = decide (n ≤ l.length) := by
  rw [Bool.eq_iff_iff, reads_all_present]
  simp

/-- When `InitializeTransform` runs the transform initializer. -/
theorem initializeTransform_initializer_mem_iff (env : InitializeTransformEnvironment)
    (SpaceDimension : Nat) (cfg : Configuration) :
    InitializeTransformCall.TransformInitializer ∈ InitializeTransform env SpaceDimension cfg ↔
      (¬ SpaceDimension ≤ cfg.CenterOfRotation.length ∧
        ¬ SpaceDimension ≤ cfg.CenterOfRotationPoint.length) ∨
      (cfg.AutomaticTransformInitialization.getD 0 "false" = "true" ∧
        env.InitialTransformIsSet = false) := by
  unfold InitializeTransform
  simp only [reads_all_present_eq, readParameter_value]
  by_cases hI : SpaceDimension ≤ cfg.CenterOfRotation.length <;>
  by_cases hP : SpaceDimension ≤ cfg.CenterOfRotationPoint.length <;>
  by_cases hA : cfg.AutomaticTransformInitialization.getD 0 "false" = "true" <;>
  cases hT : env.InitialTransformIsSet <;>
  simp [hI, hP, hA]

/-- The transform initializer is never run twice. -/
theorem initializeTransform_initializer_count_le (env : InitializeTransformEnvironment)
    (SpaceDimension : Nat) (cfg : Configuration) :
    (InitializeTransform env SpaceDimension cfg).count
      InitializeTransformCall.TransformInitializer ≤ 1 := by
  unfold InitializeTransform
  simp only [reads_all_present_eq, readParameter_value]
  by_cases hI : SpaceDimension ≤ cfg.CenterOfRotation.length <;>
  by_cases hP : SpaceDimension ≤ cfg.CenterOfRotationPoint.length <;>
  by_cases hA : cfg.AutomaticTransformInitialization.getD 0 "false" = "true" <;>
  cases hT : env.InitialTransformIsSet <;>
  cases hU : env.UseComposition <;>
  simp [hI, hP, hA, List.count_cons, List.count_append] <;>
  split_ifs <;> simp

end elastix

namespace elastix

/-- C11 as stated fails: the parameter file gives a complete `CenterOfRotationPoint` and
sets `AutomaticTransformInitialization` to "true", and an initial transform is set;
`InitializeTransform` then does not run the transform initializer. -/
theorem initializeTransform_skips_initializer_despite_request :
    sampleAutomaticFile.AutomaticTransformInitialization.getD 0 "false" = "true" ∧
    InitializeTransform (sampleRegistration true) 2 sampleAutomaticFile =
      [InitializeTransformCall.SetIdentity,
        InitializeTransformCall.SetTranslation [0, 0],
        InitializeTransformCall.SetCenter [1, 2],
        InitializeTransformCall.SetCenterToTransformedCenter,
        InitializeTransformCall.SetInitialTransformParameters] ∧
    InitializeTransformCall.TransformInitializer ∉
      InitializeTransform (sampleRegistration true) 2 sampleAutomaticFile := by
  refine ⟨by simp [sampleAutomaticFile], ?_, ?_⟩
  · simp [InitializeTransform, sampleAutomaticFile, sampleRegistration, ReadParameter,
      List.range_succ]
    norm_num
  · rw [initializeTransform_initializer_mem_iff]
    simp [sampleAutomaticFile, sampleRegistration]

/-- C11, amended: `InitializeTransform` runs the transform initializer (once) if and
only if no center of rotation was given (neither a complete `CenterOfRotation` index
nor a complete `CenterOfRotationPoint`), or the parameter file sets
`AutomaticTransformInitialization` to "true" and no initial transform is set. -/
theorem initializeTransform_runs_initializer_iff (env : InitializeTransformEnvironment)
    (SpaceDimension : Nat) (cfg : Configuration) :
    (InitializeTransformCall.TransformInitializer ∈ InitializeTransform env SpaceDimension cfg ↔
      (¬ SpaceDimension ≤ cfg.CenterOfRotation.length ∧
        ¬ SpaceDimension ≤ cfg.CenterOfRotationPoint.length) ∨
      (cfg.AutomaticTransformInitialization.getD 0 "false" = "true" ∧
        env.InitialTransformIsSet = false)) ∧
    (InitializeTransform env SpaceDimension cfg).count
      InitializeTransformCall.TransformInitializer ≤ 1 :=
  ⟨initializeTransform_initializer_mem_iff env SpaceDimension cfg,
    initializeTransform_initializer_count_le env SpaceDimension cfg⟩

theorem initializeTransform_runs_initializer_iff_witness :
    InitializeTransformCall.TransformInitializer ∈
        InitializeTransform (sampleRegistration false) 2 sampleAutomaticFile ∧
      InitializeTransformCall.TransformInitializer ∈
        InitializeTransform (sampleRegistration true) 2 (sampleScalesFile []) :=
  ⟨(initializeTransform_runs_initializer_iff (sampleRegistration false) 2
      sampleAutomaticFile).1.2 (Or.inr ⟨by simp [sampleAutomaticFile], rfl⟩),
    (initializeTransform_runs_initializer_iff (sampleRegistration true) 2
      (sampleScalesFile [])).1.2 (Or.inl ⟨by simp [sampleScalesFile], by simp [sampleScalesFile]⟩)⟩

end elastix

namespace itk

/-- The `unsigned int` accessor returns the counter exactly when the counter fits the
return type. -/
theorem getCurrentIteration_exact_iff (unsignedIntBits : Nat) (o : GradientDescentOptimizer2) :
    GradientDescentOptimizer2.GetCurrentIteration unsignedIntBits o = o.CurrentIteration ↔
      o.CurrentIteration < 2 ^ unsignedIntBits := by
  unfold GradientDescentOptimizer2.GetCurrentIteration
  constructor
  · intro h
    rw [← h]
    exact Nat.mod_lt _ (by positivity)
  · intro h
    exact Nat.mod_eq_of_lt h

/-- The sibling accessor of the SPSA optimizer, declared with the member's own type,
returns every `unsigned long` counter value exactly. -/
theorem spsa_getCurrentIteration_exact (unsignedLongBits : Nat)
    (o : SimultaneousPerturbationOptimizer) (h : o.CurrentIteration < 2 ^ unsignedLongBits) :
    SimultaneousPerturbationOptimizer.GetCurrentIteration unsignedLongBits o
      = o.CurrentIteration :=
  Nat.mod_eq_of_lt h

/-- A gradient-descent run whose cost function never fails returns with the counter at
`NumberOfIterations`. -/
theorem gradientDescent_run_counter (f : CostFunctionType) (o : GradientDescentOptimizer2)
    (hf : ∀ p, f.GetValueAndDerivative p ≠ none) :
    ∃ oN : GradientDescentOptimizer2,
      GradientDescentOptimizer2.StartOptimization f Optimizer.neverStop o = .ok oN ∧
      oN.CurrentIteration = o.NumberOfIterations := by
  have hc := gradientDescent_contract f
  obtain ⟨sN, hsN⟩ := Optimizer.advanceSteps_total (gradientDescent_step_total f hf)
    o.NumberOfIterations o.atStart
  obtain ⟨a1, _, _, _⟩ := Optimizer.advanceSteps_ok_fields hc _ _ _ hsN
  refine ⟨_, Optimizer.resumeOptimization_neverStop_ok hc o.atStart sN (Nat.zero_le _) hsN, ?_⟩
  simpa [Optimizer.atStart] using a1

/-- C12 fails on the code where `unsigned long` has 64 bits and `unsigned int` 32 (LP64):
a gradient-descent run with `NumberOfIterations = 2^32` (an `unsigned long` value) ends
with `m_CurrentIteration = 2^32`, and `GetCurrentIteration` then returns 0, not the
counter. -/
theorem getCurrentIteration_truncates_counter :
    ∃ oN : GradientDescentOptimizer2,
      GradientDescentOptimizer2.StartOptimization sampleQuadratic Optimizer.neverStop
        (sampleGradientDescent (2 ^ 32)) = .ok oN ∧
      oN.CurrentIteration = 2 ^ 32 ∧
      oN.CurrentIteration < 2 ^ 64 ∧
      GradientDescentOptimizer2.GetCurrentIteration 32 oN = 0 ∧
      GradientDescentOptimizer2.GetCurrentIteration 32 oN ≠ oN.CurrentIteration := by
  obtain ⟨oN, hrun, hN⟩ := gradientDescent_run_counter sampleQuadratic
    (sampleGradientDescent (2 ^ 32)) (by intro p; simp [sampleQuadratic])
  have hN2 : oN.CurrentIteration = 2 ^ 32 := hN
  refine ⟨oN, hrun, hN2, ?_, ?_, ?_⟩
  · rw [hN2]; norm_num
  · unfold GradientDescentOptimizer2.GetCurrentIteration
    rw [hN2]; norm_num
  · unfold GradientDescentOptimizer2.GetCurrentIteration
    rw [hN2]; norm_num

end itk

/-! ## The claim on the SPSA gain sequences -/

namespace itk

/-- C5: for every iteration index `k` and positive constants `a`, `c`, `A`, `alpha`,
`gamma`, the gain functions are `Compute_a(k) = a / (k + 1 + A)^alpha` and
`Compute_c(k) = c / (k + 1)^gamma`; both quotients are well defined (positive
denominators), positive and strictly decreasing in `k`. And after every successful
SPSA step the `LearningRate` accessor holds the gain `a_k` that the step asked
`Compute_a` for and used in its position update; when `Compute_a` returns the values of
the formula, that is `a / (k + 1 + A)^alpha` at the step's iteration index. -/
theorem spsa_gain_sequences (a c A alpha gamma : ℝ) (ha : 0 < a) (hc : 0 < c) (hA : 0 < A)
    (halpha : 0 < alpha) (hgamma : 0 < gamma) (k : Nat) :
    SimultaneousPerturbationOptimizer.Compute_a a A alpha k
      = a / ((k : ℝ) + 1 + A) ^ alpha ∧
    SimultaneousPerturbationOptimizer.Compute_c c gamma k = c / ((k : ℝ) + 1) ^ gamma ∧
    0 < ((k : ℝ) + 1 + A) ^ alpha ∧
    0 < ((k : ℝ) + 1) ^ gamma ∧
    0 < SimultaneousPerturbationOptimizer.Compute_a a A alpha k ∧
    0 < SimultaneousPerturbationOptimizer.Compute_c c gamma k ∧
    SimultaneousPerturbationOptimizer.Compute_a a A alpha (k + 1)
      < SimultaneousPerturbationOptimizer.Compute_a a A alpha k ∧
    SimultaneousPerturbationOptimizer.Compute_c c gamma (k + 1)
      < SimultaneousPerturbationOptimizer.Compute_c c gamma k ∧
    (∀ (env : SimultaneousPerturbationEnvironment) (o o1 : SimultaneousPerturbationOptimizer),
      SimultaneousPerturbationOptimizer.AdvanceOneStep env o = .ok o1 →
      o1.strategy.LearningRate = env.Compute_a (o.CurrentIteration + 1) ∧
      o1.CurrentPosition = SimultaneousPerturbationOptimizer.UpdatePosition
        o.strategy.Maximize o1.strategy.LearningRate o.CurrentPosition o1.strategy.Gradient ∧
      ((∀ j, (env.Compute_a j : ℝ) = SimultaneousPerturbationOptimizer.Compute_a a A alpha j) →
        (o1.strategy.LearningRate : ℝ)
          = a / (((o.CurrentIteration + 1 : Nat) : ℝ) + 1 + A) ^ alpha)) := by
  have hk : (0 : ℝ) ≤ (k : ℝ) := Nat.cast_nonneg k
  have hda : 0 < ((k : ℝ) + 1 + A) ^ alpha := Real.rpow_pos_of_pos (by linarith) _
  have hdc : 0 < ((k : ℝ) + 1) ^ gamma := Real.rpow_pos_of_pos (by linarith) _
  have hla : ((k : ℝ) + 1 + A) ^ alpha < (((k + 1 : Nat) : ℝ) + 1 + A) ^ alpha := by
    apply Real.rpow_lt_rpow (by linarith) _ halpha
    push_cast
    linarith
  have hlc : ((k : ℝ) + 1) ^ gamma < (((k + 1 : Nat) : ℝ) + 1) ^ gamma := by
    apply Real.rpow_lt_rpow (by linarith) _ hgamma
    push_cast
    linarith
  refine ⟨rfl, rfl, hda, hdc, div_pos ha hda, div_pos hc hdc, ?_, ?_, ?_⟩
  · exact div_lt_div_of_pos_left ha hda hla
  · exact div_lt_div_of_pos_left hc hdc hlc
  · intro env o o1 h
    have hl := spsa_learningRate_is_gain env o o1 h
    refine ⟨hl, spsa_step_uses_learningRate env o o1 h, ?_⟩
    intro hagree
    rw [hl, hagree]
    rfl

theorem spsa_gain_sequences_witness :
    0 < SimultaneousPerturbationOptimizer.Compute_a 1 10 0.602 0 ∧
    SimultaneousPerturbationOptimizer.Compute_a 1 10 0.602 1
      < SimultaneousPerturbationOptimizer.Compute_a 1 10 0.602 0 ∧
    SimultaneousPerturbationOptimizer.Compute_c 1 0.101 1
      < SimultaneousPerturbationOptimizer.Compute_c 1 0.101 0 :=
  ⟨(spsa_gain_sequences 1 1 10 0.602 0.101 (by norm_num) (by norm_num) (by norm_num)
      (by norm_num) (by norm_num) 0).2.2.2.2.1,
    (spsa_gain_sequences 1 1 10 0.602 0.101 (by norm_num) (by norm_num) (by norm_num)
      (by norm_num) (by norm_num) 0).2.2.2.2.2.2.1,
    (spsa_gain_sequences 1 1 10 0.602 0.101 (by norm_num) (by norm_num) (by norm_num)
      (by norm_num) (by norm_num) 0).2.2.2.2.2.2.2.1⟩

end itk
